import Mathlib

/-!
Verification development for the MAVProxy catch-the-leader module
(`MAVProxy/modules/mavproxy_catchleader.py`).

The module's guidance core is embedded shallowly:

* Python floats are idealised as exact rationals (`ℚ`); all float values
  produced by the module are finite, so `math.isfinite` checks collapse to
  true in the model.
* The geodesy and trigonometry helpers used by the module
  (`mp_util.gps_distance`, `mp_util.gps_bearing`, `mp_util.gps_newpos`,
  `math.cos`, `math.sin`, `math.atan2`, `math.hypot`) live outside the
  module's own source (in `MAVProxy.modules.lib.mp_util` and the Python
  standard library).  They are modelled as an abstract interface `Geo`
  passed to every function that calls them; the theorems quantify over
  the interface and only assume interface facts the specification states
  (for example that the great-circle forward projection by distance zero
  returns its input point).
* The parameter store `mpstate.mav_param_by_sysid` is external state; it
  is modelled as a function from (sysid, compid) to an association list.
* Outgoing MAVLink commands and UI pipe messages are side effects; they
  are modelled as an explicit list of `Effect` values returned by each
  state-transition function.  Formatted strings posted to the UI are
  modelled structurally: each distinct message template becomes one
  constructor carrying the values that the Python code interpolates.
* The engine's display-only caches (`_last_vehicle_refresh`,
  `_last_leader_label`, `_last_follower_label`, `last_range_status`, map
  icon/slipmap bookkeeping) feed only the external UI and are elided;
  the corresponding UI posts are kept as effects.
-/

/-- Floored modulus on `ℚ`, the semantics of Python's `%` operator for a
positive divisor (`x % y = x - y * floor (x / y)`). -/
def qmod (x y : ℚ) : ℚ := x - y * (⌊x / y⌋ : ℤ)

/-- ASCII upper-casing of a string, the model of Python's `str.upper`
for the ASCII mode labels and parameter names handled by the module
(defined by structural recursion over the character list so that it
reduces on concrete inputs). -/
def py_upper (s : String) : String :=
  String.mk (s.data.map Char.toUpper)

/-- ASCII lower-casing of a string, the model of Python's `str.lower`
for the ASCII profile and mode words handled by the module. -/
def py_lower (s : String) : String :=
  String.mk (s.data.map Char.toLower)

/-- Strips leading and trailing whitespace, the model of Python's
`str.strip`. -/
def py_strip (s : String) : String :=
  String.mk (((s.data.dropWhile Char.isWhitespace).reverse.dropWhile
    Char.isWhitespace).reverse)

/-- Fields of a `GLOBAL_POSITION_INT` telemetry message, in the raw
fixed-point units the wire format carries.  `hdg` is optional because the
Python code reads it with `getattr(msg, "hdg", None)`. -/
structure GlobalPositionInt where
  lat : ℤ
  lon : ℤ
  alt : ℤ
  relative_alt : ℤ
  vx : ℤ
  vy : ℤ
  vz : ℤ
  hdg : Option ℤ
deriving DecidableEq

/-- Abstract interface to the external geodesy/trigonometry helpers used
by the module.  `gps_distance`, `gps_bearing`, `gps_newpos` model
`mp_util.gps_distance/gps_bearing/gps_newpos`; `cos_deg x` models
`math.cos(math.radians(x))`; `sin_deg x` models
`math.sin(math.radians(x))`; `atan2_deg y x` models
`math.degrees(math.atan2(y, x))`; `hypot` models `math.hypot`. -/
structure Geo where
  gps_distance : ℚ → ℚ → ℚ → ℚ → ℚ
  gps_bearing : ℚ → ℚ → ℚ → ℚ → ℚ
  gps_newpos : ℚ → ℚ → ℚ → ℚ → ℚ × ℚ
  cos_deg : ℚ → ℚ
  sin_deg : ℚ → ℚ
  atan2_deg : ℚ → ℚ → ℚ
  hypot : ℚ → ℚ → ℚ

/-- External per-vehicle parameter store: `(sysid, compid)` to an
association list of parameter names and values.  An empty list models
both a missing and an empty parameter dictionary (Python's
`if not params: continue` skips both). -/
def ParamStore : Type := ℤ → ℤ → List (String × ℚ)

/-- Embeds the `VehicleState` dataclass: per-vehicle kinematic state and
availability. -/
structure VehicleState where
  sysid : ℤ
  compid : ℤ
  lat : Option ℚ := none
  lon : Option ℚ := none
  rel_alt : Option ℚ := none
  amsl_alt : Option ℚ := none
  vx : Option ℚ := none
  vy : Option ℚ := none
  vz : Option ℚ := none
  heading : Option ℚ := none
  mode : String := "UNKNOWN"
  armed : Bool := false
  last_update : ℚ := 0
  last_heartbeat : ℚ := 0
deriving DecidableEq

/-- Embeds `VehicleState.update_from_position`: converts the fixed-point
message units (lat/lon 1e-7 degree, altitudes millimetres, velocities
cm/s, heading centidegrees) to SI floats, leaves the stored heading
untouched when `hdg` is absent or the 65535 sentinel, and stamps
`last_update`. -/
def VehicleState.update_from_position (v : VehicleState) (msg : GlobalPositionInt)
    (timestamp : ℚ) : VehicleState :=
  { v with
    lat := some ((msg.lat : ℚ) * (1 / 10 ^ 7))
    lon := some ((msg.lon : ℚ) * (1 / 10 ^ 7))
    rel_alt := some ((msg.relative_alt : ℚ) * (1 / 1000))
    amsl_alt := some ((msg.alt : ℚ) * (1 / 1000))
    vx := some ((msg.vx : ℚ) * (1 / 100))
    vy := some ((msg.vy : ℚ) * (1 / 100))
    vz := some ((msg.vz : ℚ) * (1 / 100))
    heading :=
      match msg.hdg with
      | none => v.heading
      | some h => if h = 65535 then v.heading else some (qmod ((h : ℚ) * (1 / 100)) 360)
    last_update := timestamp }

/-- Embeds `VehicleState.is_position_fresh`. -/
def VehicleState.is_position_fresh (v : VehicleState) (now timeout : ℚ) : Bool :=
  v.lat.isSome && decide (now - v.last_update ≤ timeout)

/-- Embeds `VehicleState.is_heartbeat_fresh`. -/
def VehicleState.is_heartbeat_fresh (v : VehicleState) (now timeout : ℚ) : Bool :=
  decide (0 < v.last_heartbeat) && decide (now - v.last_heartbeat ≤ timeout)

/-- Embeds `VehicleState.speed`: horizontal speed `hypot(vx, vy)` when
both components are present. -/
def VehicleState.speed (geo : Geo) (v : VehicleState) : Option ℚ :=
  match v.vx, v.vy with
  | some a, some b => some (geo.hypot a b)
  | _, _ => none

/-- Structural model of the warning strings attached to a
`SpeedSelection`.  `paramsUnavailable profile v names` models the
"profile parameters unavailable; using follower_speed (v) instead.
Checked names." message; `nonPositiveSpeed` models the "Follower speed is
non-positive; intercept guidance will use a minimum of 0.1 m/s until
updated." message.  The Python code concatenates the two strings, which
the model represents as list append. -/
inductive SpeedWarning where
  | paramsUnavailable (profile : String) (valueUsed : ℚ) (checked : List String)
  | nonPositiveSpeed
deriving DecidableEq

/-- Embeds the `SpeedSelection` dataclass.  `warning = []` models
`warning is None`. -/
structure SpeedSelection where
  profile : String
  value : ℚ
  source : String
  forced_velocity : Bool
  fallback : Bool := false
  warning : List SpeedWarning := []
deriving DecidableEq

/-- Structural model of the strings handed to `_set_system_status`.
Each constructor stands for one distinct Python string template, with
the interpolated values carried as arguments. -/
inductive SystemStatus where
  | waitingLeaderHeartbeat
  | waitingFollowerHeartbeat
  | waitingLeaderPosition
  | waitingFollowerPosition
  | incompleteTelemetry
  | followerDisarmed
  | followerBadMode (mode : String)
  | holdingMinDistance
  | intercepting (eta spd : ℚ) (measured : Bool) (closing : ℚ) (limited : Bool)
      (minClosing : ℚ)
  | guidancePaused
  | awaitingSolution
  | guidingManual
  | fbwaRequested
deriving DecidableEq

/-- Structural model of messages posted to the UI log pane. -/
inductive LogMsg where
  | speedTelemetryRestored
  | speedTelemetryFallback (value : ℚ)
  | requestedSpeed (profile : String) (value : ℚ)
  | sentTarget (lat lon alt : ℚ) (velocityActive : Bool)
  | velocityOverrideSkipped
  | velocityOverrideRestored
  | guidanceChanged (state : String)
  | speedProfileSet
  | speedProfileWarning
  | speedProfileWarningCleared
  | manualTargetSet
  | manualTargetCleared
  | manualClearedAltitudeMode
  | altitudeModeSet (relative : Bool)
deriving DecidableEq

/-- Structural model of the `(name, payload)` updates posted to the UI
pipe. -/
inductive UIUpdate where
  | systemStatus (st : SystemStatus)
  | statusLabel (auto : Bool)
  | statusAutoTarget (t : ℚ × ℚ × ℚ)
  | targetLabel (t : ℚ × ℚ × ℚ) (manual : Bool)
  | targetCleared
  | rangeToManual (rng : ℚ)
  | rangeWithEta (rng eta : ℚ)
  | logNote (m : LogMsg)
  | speedStatus (sel : SpeedSelection)
  | speedProfile (p : String)
  | customSpeed (v : ℚ)
  | altMode (relative : Bool)
  | mapTarget (t : ℚ × ℚ × ℚ) (eta : Option ℚ) (manual : Bool)
  | mapCleared
  | vehicleLabels
deriving DecidableEq

/-- Side effects of a guidance step: an invocation of the intercept
solver (instrumentation for the temporal claims), outgoing MAVLink
commands, and UI updates. -/
inductive Effect where
  | solverCall
  | speedCommand (value : ℚ)
  | positionTarget (lat lon alt : ℚ) (vel : Option (ℚ × ℚ × ℚ)) (relative : Bool)
  | ui (u : UIUpdate)
deriving DecidableEq

/-- Embeds the `catch_settings` MPSettings block (configuration
surface). -/
structure CatchSettings where
  leader_sysid : ℤ := 1
  leader_compid : ℤ := 1
  follower_sysid : ℤ := 2
  follower_compid : ℤ := 1
  follower_speed : ℚ := 20
  speed_profile : String := "custom"
  max_lookahead : ℚ := 25
  min_closing : ℚ := 1
  update_period : ℚ := 1 / 2
  target_alt_offset : ℚ := 0
  min_distance : ℚ := 5
  position_timeout : ℚ := 3
  heartbeat_timeout : ℚ := 9 / 2
  use_relative_alt : Bool := false
  target_filter_alpha : ℚ := 1 / 2
deriving DecidableEq

/-- Engine state: the mutable fields of the `CatchLeader` module that the
guidance core reads and writes.  Display-only caches are elided (see the
file header). -/
structure Engine where
  catch_settings : CatchSettings
  leader : VehicleState
  follower : VehicleState
  guidance_state : String := "hold"
  manual_target : Option (ℚ × ℚ × ℚ) := none
  last_sent : ℚ := 0
  last_speed_selection : Option SpeedSelection := none
  last_speed_command_value : Option ℚ := none
  last_speed_profile_command : Option String := none
  last_speed_source_command : Option String := none
  velocity_override_warning_sent : Bool := false
  follower_speed_smoothed : Option ℚ := none
  speed_telemetry_warning_sent : Bool := false
  filtered_target : Option (ℚ × ℚ × ℚ) := none
  current_status : Option SystemStatus := none
  last_target_info : Option ((ℚ × ℚ × ℚ) × Bool × Option ℚ) := none
deriving DecidableEq

/-- First parameter hit over a list of `(sysid, compid)` candidates,
the search loop inside `_get_vehicle_param`.  Revisiting a duplicate key
repeats an identical lookup, so the Python `seen` set is semantically
redundant and elided. -/
def lookup_first (store : ParamStore) : List (ℤ × ℤ) → String → Option ℚ
  | [], _ => none
  | k :: rest, nm =>
    match (store k.1 k.2).find? (fun p => p.1 = nm) with
    | some p => some p.2
    | none => lookup_first store rest nm

/-- Embeds `_get_vehicle_param`: looks up an upper-cased parameter name
for the exact `(sysid, compid)`, then falls back to components 1 and 0.
The settings always carry integer ids, so the `sysid is None` guard is
unreachable and elided. -/
def get_vehicle_param (store : ParamStore) (sysid compid : ℤ) (name : String) :
    Option ℚ :=
  lookup_first store [(sysid, compid), (sysid, 1), (sysid, 0)] (py_upper name)

/-- Embeds `_get_follower_param`. -/
def get_follower_param (store : ParamStore) (s : CatchSettings) (name : String) :
    Option ℚ :=
  get_vehicle_param store s.follower_sysid s.follower_compid name

/-- The candidate loop of `_resolve_speed_selection`: first candidate
parameter whose scaled value is strictly positive wins (the
`math.isfinite` test is always true in the rational model, and the
`float(...)` conversion of a stored numeric parameter cannot fail). -/
def first_usable_candidate (store : ParamStore) (s : CatchSettings) :
    List (String × ℚ) → Option (ℚ × String)
  | [] => none
  | (name, scale) :: rest =>
    match get_follower_param store s name with
    | none => first_usable_candidate store s rest
    | some v =>
      if 0 < v * scale then some (v * scale, name)
      else first_usable_candidate store s rest

/-- The per-profile parameter candidate lists of
`_resolve_speed_selection` (`profile_candidates`). -/
def profile_candidates (profile : String) : List (String × ℚ) :=
  if profile = "cruise" then
    [("AIRSPEED_CRUISE", 1), ("AIRSPEED_TRIM", 1), ("TRIM_ARSPD_CM", 1 / 100)]
  else if profile = "max" then [("AIRSPEED_MAX", 1), ("ARSPD_FBW_MAX", 1 / 100)]
  else []

/-- Embeds `_resolve_speed_selection`. -/
def resolve_speed_selection (store : ParamStore) (s : CatchSettings) :
    SpeedSelection :=
  let p0 := if s.speed_profile = "" then "custom" else s.speed_profile
  let p1 := py_lower p0
  let profile := if p1 = "custom" ∨ p1 = "cruise" ∨ p1 = "max" then p1 else "custom"
  let forced_velocity := profile = "max"
  let v0 := max s.follower_speed 0
  let candidates := profile_candidates profile
  let found := first_usable_candidate store s candidates
  let value := match found with | some vn => vn.1 | none => v0
  let source := match found with | some vn => vn.2 | none => "follower_speed"
  let fallback := found.isNone && !candidates.isEmpty
  let warning1 : List SpeedWarning :=
    if found.isNone ∧ ¬candidates.isEmpty then
      [SpeedWarning.paramsUnavailable profile v0 (candidates.map Prod.fst)]
    else []
  let warning := if value ≤ 0 then warning1 ++ [SpeedWarning.nonPositiveSpeed] else warning1
  { profile := profile, value := value, source := source,
    forced_velocity := forced_velocity, fallback := fallback, warning := warning }

/-- Embeds `_speed_selection_changed`. -/
def speed_selection_changed (previous : Option SpeedSelection)
    (current : SpeedSelection) : Bool :=
  match previous with
  | none => true
  | some p =>
    decide (p.profile ≠ current.profile) || decide (p.source ≠ current.source) ||
      (p.forced_velocity != current.forced_velocity) ||
      (p.fallback != current.fallback) || decide (1 / 10 < |p.value - current.value|)

/-- Embeds `_set_system_status`: stores the status and posts a `system`
UI update unless the text is unchanged. -/
def set_system_status (e : Engine) (st : SystemStatus) : Engine × List Effect :=
  if e.current_status = some st then (e, [])
  else ({ e with current_status := some st }, [Effect.ui (UIUpdate.systemStatus st)])

/-- Embeds `_reset_target_filter`. -/
def reset_target_filter (e : Engine) : Engine :=
  { e with filtered_target := none }

/-- Embeds `_clear_map_target`: removes the map icon (modelled as a
single UI effect) and forgets the displayed target. -/
def clear_map_target (e : Engine) : Engine × List Effect :=
  ({ e with last_target_info := none }, [Effect.ui UIUpdate.mapCleared])

/-- The clamped smoothing coefficient computed at the top of
`_filter_target` (`max(0.0, min(1.0, target_filter_alpha))`); the
configuration surface documents the coefficient as clamped to [0, 1]. -/
def effective_alpha (e : Engine) : ℚ :=
  max 0 (min 1 e.catch_settings.target_filter_alpha)

/-- Embeds `_filter_target`: pass-through (seeding the state) when the
state is unset or the clamped coefficient is at least 1, otherwise a
per-axis exponential moving average. -/
def filter_target (e : Engine) (target : ℚ × ℚ × ℚ) : Engine × (ℚ × ℚ × ℚ) :=
  let alpha := effective_alpha e
  match e.filtered_target with
  | none => ({ e with filtered_target := some target }, target)
  | some prev =>
    if 1 ≤ alpha then ({ e with filtered_target := some target }, target)
    else
      let lat := prev.1 + alpha * (target.1 - prev.1)
      let lon := prev.2.1 + alpha * (target.2.1 - prev.2.1)
      let alt := prev.2.2 + alpha * (target.2.2 - prev.2.2)
      ({ e with filtered_target := some (lat, lon, alt) }, (lat, lon, alt))

/-- Iterates `_filter_target` over a list of raw targets, returning the
final engine and the filtered output of each call (harness for the
"never changes after the first call" property). -/
def filter_target_run (e : Engine) : List (ℚ × ℚ × ℚ) → Engine × List (ℚ × ℚ × ℚ)
  | [] => (e, [])
  | t :: ts =>
    let ft := filter_target e t
    let rest := filter_target_run ft.1 ts
    (rest.1, ft.2 :: rest.2)

/-- Embeds `_update_speed_selection`: resolves the selection, detects
changes against the previous one, logs warnings edge-triggered, clears
the speed-command de-dup cache on change, and refreshes the UI. -/
def update_speed_selection (store : ParamStore) (e : Engine) (log_change : Bool) :
    Engine × List Effect × SpeedSelection :=
  let sel := resolve_speed_selection store e.catch_settings
  let previous := e.last_speed_selection
  let changed := speed_selection_changed previous sel
  let e1 := { e with last_speed_selection := some sel }
  let ui1 : List UIUpdate :=
    if log_change && changed then [UIUpdate.logNote LogMsg.speedProfileSet] else []
  let ui2 : List UIUpdate :=
    if sel.warning ≠ [] then
      match previous with
      | none => [UIUpdate.logNote LogMsg.speedProfileWarning]
      | some p =>
        if p.warning ≠ sel.warning then [UIUpdate.logNote LogMsg.speedProfileWarning]
        else []
    else
      match previous with
      | some p =>
        if p.warning ≠ [] then [UIUpdate.logNote LogMsg.speedProfileWarningCleared]
        else []
      | none => []
  let e2 :=
    if changed then
      { e1 with last_speed_command_value := none, last_speed_profile_command := none,
                last_speed_source_command := none }
    else e1
  let ui3 : List UIUpdate :=
    [UIUpdate.speedStatus sel, UIUpdate.speedProfile sel.profile,
     UIUpdate.customSpeed (max e.catch_settings.follower_speed 0)]
  (e2, (ui1 ++ ui2 ++ ui3).map Effect.ui, sel)

/-- Embeds `_maybe_send_speed_command`: a `DO_CHANGE_SPEED` command is
sent only in AUTO, only for a positive value, and only when the de-dup
cache shows a meaningful change. -/
def maybe_send_speed_command (e : Engine) (sel : SpeedSelection) :
    Engine × List Effect :=
  if e.guidance_state ≠ "auto" then (e, [])
  else if sel.value ≤ 0 then (e, [])
  else if (match e.last_speed_command_value with
           | some v => decide (|v - sel.value| < 1 / 4)
           | none => false) &&
          decide (e.last_speed_profile_command = some sel.profile) &&
          decide (e.last_speed_source_command = some sel.source) then (e, [])
  else
    ({ e with last_speed_command_value := some sel.value,
              last_speed_profile_command := some sel.profile,
              last_speed_source_command := some sel.source },
     [Effect.speedCommand sel.value,
      Effect.ui (UIUpdate.logNote (LogMsg.requestedSpeed sel.profile sel.value))])

/-- The velocity-override block of `_send_target`: a 3-D velocity vector
toward the target, scaled to the selected speed, when the MAX profile
forces velocity and follower telemetry is complete. -/
def velocity_override (geo : Geo) (e : Engine) (target : ℚ × ℚ × ℚ)
    (sel : SpeedSelection) : Option (ℚ × ℚ × ℚ) :=
  if sel.forced_velocity ∧ 0 < sel.value then
    match e.follower.lat, e.follower.lon,
        (if e.catch_settings.use_relative_alt then e.follower.rel_alt
         else e.follower.amsl_alt) with
    | some flat, some flon, some falt =>
      let bearing := geo.gps_bearing flat flon target.1 target.2.1
      let horizontal_distance := geo.gps_distance flat flon target.1 target.2.1
      let alt_error := target.2.2 - falt
      let distance_3d := geo.hypot horizontal_distance alt_error
      if 1 / 1000 < distance_3d then
        let hfrac := if 0 < distance_3d then horizontal_distance / distance_3d else 0
        some (sel.value * hfrac * geo.cos_deg bearing,
              sel.value * hfrac * geo.sin_deg bearing,
              sel.value * (-alt_error / distance_3d))
      else none
    | _, _, _ => none
  else none

/-- Embeds `_send_target`: computes the optional velocity override,
maintains the edge-triggered override warning, and emits the
`SET_POSITION_TARGET_GLOBAL_INT` command followed by the log line. -/
def send_target (geo : Geo) (e : Engine) (target : ℚ × ℚ × ℚ)
    (sel : SpeedSelection) : Engine × List Effect :=
  let vel := velocity_override geo e target sel
  let warn :=
    if sel.forced_velocity && vel.isNone then
      if e.velocity_override_warning_sent then (e, ([] : List UIUpdate))
      else ({ e with velocity_override_warning_sent := true },
            [UIUpdate.logNote LogMsg.velocityOverrideSkipped])
    else
      (({ e with velocity_override_warning_sent := false }),
       if e.velocity_override_warning_sent && vel.isSome then
         [UIUpdate.logNote LogMsg.velocityOverrideRestored]
       else [])
  (warn.1,
   warn.2.map Effect.ui ++
     [Effect.positionTarget target.1 target.2.1 target.2.2 vel
        e.catch_settings.use_relative_alt,
      Effect.ui (UIUpdate.logNote
        (LogMsg.sentTarget target.1 target.2.1 target.2.2 vel.isSome))])

/-- Embeds `set_guidance_state`: guards the state label, resets the
target filter exactly on a transition, and runs the per-state side
effects (HOLD clears the map target and the speed-command cache; AUTO
refreshes the speed selection). -/
def set_guidance_state (store : ParamStore) (e : Engine) (st : String) :
    Engine × List Effect :=
  if st ≠ "auto" ∧ st ≠ "hold" then (e, [])
  else
    let previous_state := e.guidance_state
    let e1 := { e with guidance_state := st }
    let e2 := if st ≠ previous_state then reset_target_filter e1 else e1
    let fx0 := [Effect.ui (UIUpdate.statusLabel (st = "auto")),
                Effect.ui (UIUpdate.logNote (LogMsg.guidanceChanged st))]
    if st = "hold" then
      let s1 := set_system_status e2 SystemStatus.guidancePaused
      let c1 := clear_map_target s1.1
      ({ c1.1 with last_speed_command_value := none,
                   last_speed_profile_command := none,
                   last_speed_source_command := none },
       fx0 ++ s1.2 ++ c1.2)
    else
      let s1 := set_system_status e2 SystemStatus.awaitingSolution
      let u := update_speed_selection store s1.1 true
      (u.1, fx0 ++ s1.2 ++ u.2.1)

/-- Embeds the body of `_handle_manual_target` after coordinate parsing
(the parse-failure paths reject the input at the command boundary with
no state change).  A missing altitude defaults to the leader's altitude
in the current frame, or 0 when that is unknown. -/
def handle_manual_target (store : ParamStore) (e : Engine) (lat lon : ℚ)
    (altIn : Option ℚ) : Engine × List Effect :=
  let alt :=
    match altIn with
    | some a => a
    | none =>
      ((if e.catch_settings.use_relative_alt then e.leader.rel_alt
        else e.leader.amsl_alt).getD 0)
  let target := (lat, lon, alt)
  let e1 := { e with manual_target := some target }
  let g := set_guidance_state store e1 "auto"
  let e2 := reset_target_filter g.1
  let s1 := set_system_status e2 SystemStatus.guidingManual
  let e3 := { s1.1 with last_target_info := some (target, true, none) }
  (e3,
   g.2 ++
     [Effect.ui (UIUpdate.targetLabel target true),
      Effect.ui (UIUpdate.logNote LogMsg.manualTargetSet)] ++
     s1.2 ++ [Effect.ui (UIUpdate.mapTarget target none true)])

/-- Embeds the `clear` branch of `cmd_catchleader` (the UI `clear`
command runs the same steps): drops the manual target, clears the
displays and the map icon, and resets the target filter. -/
def handle_clear (e : Engine) : Engine × List Effect :=
  let e1 := { e with manual_target := none }
  let s1 := set_system_status e1 SystemStatus.awaitingSolution
  let c1 := clear_map_target s1.1
  let e2 := reset_target_filter c1.1
  (e2,
   [Effect.ui UIUpdate.targetCleared,
    Effect.ui (UIUpdate.logNote LogMsg.manualTargetCleared)] ++ c1.2 ++ s1.2)

/-- Embeds `_on_altitude_mode_updated`: a real change clears any manual
target (without resetting the target filter) and logs; both paths
re-emit the altitude mode, the vehicle labels and, when a target is on
display, the target label and map icon (`_emit_altitude_mode` /
`_refresh_target_display`). -/
def on_altitude_mode_updated (e : Engine) (changed : Bool) : Engine × List Effect :=
  let step1 :=
    if changed && e.manual_target.isSome then
      let e' := { e with manual_target := none }
      let s1 := set_system_status e' SystemStatus.awaitingSolution
      let c1 := clear_map_target s1.1
      (c1.1,
       [Effect.ui UIUpdate.targetCleared,
        Effect.ui (UIUpdate.logNote LogMsg.manualClearedAltitudeMode)] ++ s1.2 ++ c1.2)
    else (e, [])
  let e1 := step1.1
  let fx2 :=
    if changed then
      [Effect.ui (UIUpdate.logNote
        (LogMsg.altitudeModeSet e1.catch_settings.use_relative_alt))]
    else []
  let fx3 :=
    [Effect.ui (UIUpdate.altMode e1.catch_settings.use_relative_alt),
     Effect.ui UIUpdate.vehicleLabels] ++
      (match e1.last_target_info with
       | some info =>
         [Effect.ui (UIUpdate.targetLabel info.1 info.2.1),
          Effect.ui (UIUpdate.mapTarget info.1 info.2.2 info.2.1)]
       | none => [])
  (e1, step1.2 ++ fx2 ++ fx3)

/-- Embeds `_handle_altitude_mode`: normalises the mode word, updates the
`use_relative_alt` setting when it differs, and delegates to
`_on_altitude_mode_updated`. -/
def handle_altitude_mode (e : Engine) (mode : String) : Engine × List Effect :=
  let desired := py_lower (py_strip mode)
  if desired ≠ "relative" ∧ desired ≠ "absolute" then (e, [])
  else
    let use_relative := desired = "relative"
    if use_relative = e.catch_settings.use_relative_alt then
      on_altitude_mode_updated e false
    else
      on_altitude_mode_updated
        { e with catch_settings :=
            { e.catch_settings with use_relative_alt := use_relative } } true

/-- The follower-speed block at the top of `compute_intercept` (lines
choosing between the exponential moving average of measured groundspeed
and the configured fallback).  Returns the updated engine, the
edge-triggered log effects, the follower speed used (floored at 0.1),
and whether it came from telemetry. -/
def follower_speed_step (geo : Geo) (e : Engine) (sel : SpeedSelection) :
    Engine × List Effect × ℚ × Bool :=
  match e.follower.speed geo with
  | some actual =>
    let smoothed :=
      match e.follower_speed_smoothed with
      | none => actual
      | some prev => 7 / 20 * actual + 13 / 20 * prev
    let fs := max smoothed (1 / 10)
    if e.speed_telemetry_warning_sent then
      ({ e with follower_speed_smoothed := some smoothed,
                speed_telemetry_warning_sent := false },
       [Effect.ui (UIUpdate.logNote LogMsg.speedTelemetryRestored)], fs, true)
    else
      ({ e with follower_speed_smoothed := some smoothed }, [], fs, true)
  | none =>
    let fs := max sel.value (1 / 10)
    if e.speed_telemetry_warning_sent then (e, [], fs, false)
    else
      ({ e with speed_telemetry_warning_sent := true },
       [Effect.ui (UIUpdate.logNote (LogMsg.speedTelemetryFallback fs))], fs, false)

/-- The allow-list test of `compute_intercept` and `_update_warnings`:
the follower's upper-cased mode label must be GUIDED, GUIDED_NOGPS,
POSHOLD or LOITER. -/
def allowed_mode (mode : String) : Bool :=
  ["GUIDED", "GUIDED_NOGPS", "POSHOLD", "LOITER"].contains (py_upper mode)

/-- A successful intercept solution.  The Python function returns only
`((predicted_lat, predicted_lon, target_alt), time_to_go)`; the record
additionally exposes the local variables of the computation (`rng`,
`bearing_to_leader`, `leader_course`, `leader_speed`, `follower_speed`,
`closing_rate_raw`, `closing_rate`, `closing_limited`, `min_closing`,
`offset_distance`) that feed the status line, so the theorems can speak
about them. -/
structure InterceptOk where
  predicted_lat : ℚ
  predicted_lon : ℚ
  target_alt : ℚ
  time_to_go : ℚ
  rng : ℚ
  bearing_to_leader : ℚ
  leader_course : ℚ
  leader_speed : ℚ
  follower_speed : ℚ
  speed_from_telemetry : Bool
  closing_rate_raw : ℚ
  closing_rate : ℚ
  closing_limited : Bool
  min_closing : ℚ
  offset_distance : ℚ
deriving DecidableEq

/-- Embeds `compute_intercept`: the ordered precondition gate (each
failure short-circuits with its own status and no result), the
follower-speed block, the minimum-distance hold, and the predictive
geometry.  `none` models Python's `None` return. -/
def compute_intercept (geo : Geo) (e : Engine) (now : ℚ) (sel : SpeedSelection) :
    Engine × List Effect × Option InterceptOk :=
  let s := e.catch_settings
  if ¬ e.leader.is_heartbeat_fresh now s.heartbeat_timeout then
    let b := set_system_status e SystemStatus.waitingLeaderHeartbeat
    (b.1, b.2, none)
  else if ¬ e.follower.is_heartbeat_fresh now s.heartbeat_timeout then
    let b := set_system_status e SystemStatus.waitingFollowerHeartbeat
    (b.1, b.2, none)
  else if ¬ e.leader.is_position_fresh now s.position_timeout then
    let b := set_system_status e SystemStatus.waitingLeaderPosition
    (b.1, b.2, none)
  else if ¬ e.follower.is_position_fresh now s.position_timeout then
    let b := set_system_status e SystemStatus.waitingFollowerPosition
    (b.1, b.2, none)
  else if e.leader.lat.isNone || e.leader.lon.isNone ||
      e.follower.lat.isNone || e.follower.lon.isNone then
    let b := set_system_status e SystemStatus.incompleteTelemetry
    (b.1, b.2, none)
  else if ¬ e.follower.armed then
    let b := set_system_status e SystemStatus.followerDisarmed
    (b.1, b.2, none)
  else if ¬ allowed_mode e.follower.mode then
    let b := set_system_status e (SystemStatus.followerBadMode e.follower.mode)
    (b.1, b.2, none)
  else
    let fstep := follower_speed_step geo e sel
    let e1 := fstep.1
    let fx1 := fstep.2.1
    let follower_speed := fstep.2.2.1
    let from_telemetry := fstep.2.2.2
    let flat := e.follower.lat.getD 0
    let flon := e.follower.lon.getD 0
    let llat := e.leader.lat.getD 0
    let llon := e.leader.lon.getD 0
    let rng := geo.gps_distance flat flon llat llon
    if rng < s.min_distance then
      let b := set_system_status e1 SystemStatus.holdingMinDistance
      (b.1, fx1 ++ b.2, none)
    else
      let bearing_to_leader := geo.gps_bearing flat flon llat llon
      let leader_speed := (e.leader.speed geo).getD 0
      let leader_course :=
        if 1 / 100 < leader_speed ∧ e.leader.vx.isSome ∧ e.leader.vy.isSome then
          qmod (geo.atan2_deg (e.leader.vy.getD 0) (e.leader.vx.getD 0)) 360
        else bearing_to_leader
      let closing_projection :=
        leader_speed * geo.cos_deg (bearing_to_leader - leader_course)
      let closing_rate_raw := follower_speed - closing_projection
      let min_closing := max s.min_closing (1 / 10)
      let cr :=
        if closing_rate_raw < min_closing then (min_closing, true)
        else (closing_rate_raw, false)
      let time_to_go := min (rng / cr.1) s.max_lookahead
      let offset_distance := leader_speed * time_to_go
      let np := geo.gps_newpos llat llon leader_course offset_distance
      let leader_alt :=
        if s.use_relative_alt then e.leader.rel_alt.getD 0 else e.leader.amsl_alt.getD 0
      let target_alt := leader_alt + s.target_alt_offset
      let b := set_system_status e1
        (SystemStatus.intercepting time_to_go follower_speed from_telemetry cr.1 cr.2
          min_closing)
      (b.1, fx1 ++ b.2,
       some { predicted_lat := np.1, predicted_lon := np.2, target_alt := target_alt,
              time_to_go := time_to_go, rng := rng,
              bearing_to_leader := bearing_to_leader, leader_course := leader_course,
              leader_speed := leader_speed, follower_speed := follower_speed,
              speed_from_telemetry := from_telemetry,
              closing_rate_raw := closing_rate_raw, closing_rate := cr.1,
              closing_limited := cr.2, min_closing := min_closing,
              offset_distance := offset_distance })

/-- The manual-branch range display of the AUTO tick: posted only when
the follower's position is known (`if self.follower.lat is not None and
self.follower.lon is not None`). -/
def manual_range_fx (geo : Geo) (e : Engine) (target : ℚ × ℚ × ℚ) : List Effect :=
  match e.follower.lat, e.follower.lon with
  | some flat, some flon =>
    [Effect.ui (UIUpdate.rangeToManual
      (geo.gps_distance flat flon target.1 target.2.1))]
  | _, _ => []

/-- The straight-line tail of the AUTO tick in `idle_task` after a target
is available (filter, optional speed command, position command, pacing
stamp, displays).  `manual` records which branch produced the target,
exactly as Python re-tests `self.manual_target is not None`. -/
def after_target (geo : Geo) (e : Engine) (fx0 : List Effect) (target0 : ℚ × ℚ × ℚ)
    (closing_time : Option ℚ) (sel : SpeedSelection) (now : ℚ) (manual : Bool) :
    Engine × List Effect :=
  let ft := filter_target e target0
  let e1 := ft.1
  let target := ft.2
  let ms := maybe_send_speed_command e1 sel
  let st := send_target geo ms.1 target sel
  let e3 := { st.1 with last_sent := now }
  let fx1 := fx0 ++ ms.2 ++ st.2 ++ [Effect.ui (UIUpdate.statusAutoTarget target)]
  if manual then
    ({ e3 with last_target_info := some (target, true, closing_time) },
     fx1 ++ [Effect.ui (UIUpdate.targetLabel target true)] ++
       manual_range_fx geo e3 target ++
       [Effect.ui (UIUpdate.mapTarget target closing_time true)])
  else
    let rng := geo.gps_distance (e3.follower.lat.getD 0) (e3.follower.lon.getD 0)
      (e3.leader.lat.getD 0) (e3.leader.lon.getD 0)
    ({ e3 with last_target_info := some (target, false, closing_time) },
     fx1 ++
       [Effect.ui (UIUpdate.rangeWithEta rng (closing_time.getD 0)),
        Effect.ui (UIUpdate.targetLabel target false),
        Effect.ui (UIUpdate.mapTarget target closing_time false)])

/-- Embeds the guidance section of `idle_task` (everything from the
`guidance_state` test onward; the UI-command poll and the warning
refresh that precede it are independent of the guidance step).  The
`Effect.solverCall` marker records each invocation of
`compute_intercept`. -/
def idle_task_guidance (geo : Geo) (store : ParamStore) (e : Engine) (now : ℚ) :
    Engine × List Effect :=
  if e.guidance_state ≠ "auto" then
    if e.manual_target.isNone then
      let s1 := set_system_status e SystemStatus.guidancePaused
      (s1.1, s1.2)
    else (e, [])
  else if now - e.last_sent < e.catch_settings.update_period then (e, [])
  else
    let u := update_speed_selection store e false
    let e1 := u.1
    let fxU := u.2.1
    let sel := u.2.2
    match e1.manual_target with
    | some target0 =>
      let s1 := set_system_status e1 SystemStatus.guidingManual
      after_target geo s1.1 (fxU ++ s1.2) target0 none sel now true
    | none =>
      let ci := compute_intercept geo e1 now sel
      match ci.2.2 with
      | none =>
        let c1 := clear_map_target ci.1
        (reset_target_filter c1.1, fxU ++ [Effect.solverCall] ++ ci.2.1 ++ c1.2)
      | some r =>
        after_target geo ci.1 (fxU ++ [Effect.solverCall] ++ ci.2.1)
          (r.predicted_lat, r.predicted_lon, r.target_alt) (some r.time_to_go) sel
          now false

/-- Empty external parameter store: no vehicle publishes any parameter. -/
def emptyStore : ParamStore := fun _ _ => []

/-- Concrete geometry interface used by the witnesses and
counterexamples.  Every value it returns is attainable by the real
helpers in a suitable configuration: a range of 100 m, a bearing of 0
degrees, `cos 0 = 1`, `sin 0 = 0`, `atan2(0, x) = 0` for positive `x`,
`hypot` agreeing with the true hypotenuse whenever one argument is 0,
and a forward projection that returns its input point at distance 0. -/
def wGeo : Geo where
  gps_distance := fun _ _ _ _ => 100
  gps_bearing := fun _ _ _ _ => 0
  gps_newpos := fun la lo _ d => (la, lo + d)
  cos_deg := fun _ => 1
  sin_deg := fun _ => 0
  atan2_deg := fun _ _ => 0
  hypot := fun a b => |a| + |b|

/-- Leader vehicle for the witnesses: stationary (zero velocity), fresh
position and heartbeat at time 10. -/
def wLeader : VehicleState where
  sysid := 1
  compid := 1
  lat := some 10
  lon := some 20
  rel_alt := some 50
  amsl_alt := some 100
  vx := some 0
  vy := some 0
  vz := some 0
  mode := "AUTO"
  armed := true
  last_update := 10
  last_heartbeat := 10

/-- Follower vehicle for the witnesses: armed, in GUIDED, moving at
12 m/s, fresh position and heartbeat at time 10. -/
def wFollower : VehicleState where
  sysid := 2
  compid := 1
  lat := some 10
  lon := some (201 / 10)
  rel_alt := some 50
  amsl_alt := some 100
  vx := some 12
  vy := some 0
  vz := some 0
  mode := "GUIDED"
  armed := true
  last_update := 10
  last_heartbeat := 10

/-- Engine state for the witnesses: default settings, fresh telemetry,
guidance in AUTO with no manual target. -/
def wEngine : Engine where
  catch_settings := {}
  leader := wLeader
  follower := wFollower
  guidance_state := "auto"

/-- The CUSTOM speed selection that `wEngine`'s settings resolve to. -/
def wSel : SpeedSelection where
  profile := "custom"
  value := 20
  source := "follower_speed"
  forced_velocity := false

theorem set_system_status_current (e : Engine) (st : SystemStatus) :
    (set_system_status e st).1.current_status = some st := by
  unfold set_system_status
  split
  · next h => simpa using h
  · rfl

theorem set_system_status_filtered (e : Engine) (st : SystemStatus) :
    (set_system_status e st).1.filtered_target = e.filtered_target := by
  unfold set_system_status
  split <;> rfl

theorem set_system_status_manual (e : Engine) (st : SystemStatus) :
    (set_system_status e st).1.manual_target = e.manual_target := by
  unfold set_system_status
  split <;> rfl

theorem set_system_status_guidance (e : Engine) (st : SystemStatus) :
    (set_system_status e st).1.guidance_state = e.guidance_state := by
  unfold set_system_status
  split <;> rfl

theorem set_system_status_fx (e : Engine) (st : SystemStatus) :
    (set_system_status e st).2 = [] ∨
      (set_system_status e st).2 = [Effect.ui (UIUpdate.systemStatus st)] := by
  unfold set_system_status
  split
  · exact Or.inl rfl
  · exact Or.inr rfl

theorem solverCall_not_mem_set_system_status (e : Engine) (st : SystemStatus) :
    Effect.solverCall ∉ (set_system_status e st).2 := by
  rcases set_system_status_fx e st with h | h <;> rw [h] <;> simp

theorem follower_speed_step_floor (geo : Geo) (e : Engine) (sel : SpeedSelection) :
    (1 / 10 : ℚ) ≤ (follower_speed_step geo e sel).2.2.1 := by
  unfold follower_speed_step
  rcases e.follower.speed geo with _ | a <;> dsimp only <;> split <;>
    exact le_max_right _ _

theorem update_speed_selection_manual (store : ParamStore) (e : Engine) (b : Bool) :
    (update_speed_selection store e b).1.manual_target = e.manual_target := by
  unfold update_speed_selection
  dsimp only
  split <;> rfl

theorem update_speed_selection_filtered (store : ParamStore) (e : Engine) (b : Bool) :
    (update_speed_selection store e b).1.filtered_target = e.filtered_target := by
  unfold update_speed_selection
  dsimp only
  split <;> rfl

theorem update_speed_selection_guidance (store : ParamStore) (e : Engine) (b : Bool) :
    (update_speed_selection store e b).1.guidance_state = e.guidance_state := by
  unfold update_speed_selection
  dsimp only
  split <;> rfl

theorem solverCall_not_mem_update_speed_selection (store : ParamStore) (e : Engine)
    (b : Bool) : Effect.solverCall ∉ (update_speed_selection store e b).2.1 := by
  intro hmem
  unfold update_speed_selection at hmem
  dsimp only at hmem
  rcases List.mem_map.mp hmem with ⟨u, _, hu⟩
  exact Effect.noConfusion hu

theorem solverCall_not_mem_maybe_send (e : Engine) (sel : SpeedSelection) :
    Effect.solverCall ∉ (maybe_send_speed_command e sel).2 := by
  unfold maybe_send_speed_command
  split
  · simp
  split
  · simp
  split
  · simp
  · simp

theorem solverCall_not_mem_send_target (geo : Geo) (e : Engine) (t : ℚ × ℚ × ℚ)
    (sel : SpeedSelection) : Effect.solverCall ∉ (send_target geo e t sel).2 := by
  intro hmem
  unfold send_target at hmem
  dsimp only at hmem
  rcases List.mem_append.mp hmem with h | h
  · rcases List.mem_map.mp h with ⟨u, _, hu⟩
    exact Effect.noConfusion hu
  · rcases List.mem_cons.mp h with h | h
    · exact Effect.noConfusion h
    · rcases List.mem_cons.mp h with h | h
      · exact Effect.noConfusion h
      · exact List.not_mem_nil _ h

theorem positionTarget_mem_send_target (geo : Geo) (e : Engine) (t : ℚ × ℚ × ℚ)
    (sel : SpeedSelection) :
    Effect.positionTarget t.1 t.2.1 t.2.2 (velocity_override geo e t sel)
      e.catch_settings.use_relative_alt ∈ (send_target geo e t sel).2 := by
  unfold send_target
  dsimp only
  exact List.mem_append.mpr (Or.inr (List.mem_cons_self _ _))

theorem ci_blocked_leader_hb (geo : Geo) (e : Engine) (now : ℚ) (sel : SpeedSelection)
    (h1 : e.leader.is_heartbeat_fresh now e.catch_settings.heartbeat_timeout = false) :
    (compute_intercept geo e now sel).2.2 = none ∧
      (compute_intercept geo e now sel).1.current_status =
        some SystemStatus.waitingLeaderHeartbeat := by
  have : compute_intercept geo e now sel =
      ((set_system_status e SystemStatus.waitingLeaderHeartbeat).1,
       (set_system_status e SystemStatus.waitingLeaderHeartbeat).2, none) := by
    simp only [compute_intercept, h1, Bool.false_eq_true, not_false_eq_true, if_true]
  rw [this]
  exact ⟨rfl, set_system_status_current e _⟩

theorem ci_blocked_follower_hb (geo : Geo) (e : Engine) (now : ℚ) (sel : SpeedSelection)
    (h1 : e.leader.is_heartbeat_fresh now e.catch_settings.heartbeat_timeout = true)
    (h2 : e.follower.is_heartbeat_fresh now e.catch_settings.heartbeat_timeout = false) :
    (compute_intercept geo e now sel).2.2 = none ∧
      (compute_intercept geo e now sel).1.current_status =
        some SystemStatus.waitingFollowerHeartbeat := by
  have : compute_intercept geo e now sel =
      ((set_system_status e SystemStatus.waitingFollowerHeartbeat).1,
       (set_system_status e SystemStatus.waitingFollowerHeartbeat).2, none) := by
    simp only [compute_intercept, h1, h2, eq_self_iff_true, not_true,
      Bool.false_eq_true, not_false_eq_true, if_true, if_false]
  rw [this]
  exact ⟨rfl, set_system_status_current e _⟩

theorem ci_blocked_leader_pos (geo : Geo) (e : Engine) (now : ℚ) (sel : SpeedSelection)
    (h1 : e.leader.is_heartbeat_fresh now e.catch_settings.heartbeat_timeout = true)
    (h2 : e.follower.is_heartbeat_fresh now e.catch_settings.heartbeat_timeout = true)
    (h3 : e.leader.is_position_fresh now e.catch_settings.position_timeout = false) :
    (compute_intercept geo e now sel).2.2 = none ∧
      (compute_intercept geo e now sel).1.current_status =
        some SystemStatus.waitingLeaderPosition := by
  have : compute_intercept geo e now sel =
      ((set_system_status e SystemStatus.waitingLeaderPosition).1,
       (set_system_status e SystemStatus.waitingLeaderPosition).2, none) := by
    simp only [compute_intercept, h1, h2, h3, eq_self_iff_true, not_true,
      Bool.false_eq_true, not_false_eq_true, if_true, if_false]
  rw [this]
  exact ⟨rfl, set_system_status_current e _⟩

theorem ci_blocked_follower_pos (geo : Geo) (e : Engine) (now : ℚ) (sel : SpeedSelection)
    (h1 : e.leader.is_heartbeat_fresh now e.catch_settings.heartbeat_timeout = true)
    (h2 : e.follower.is_heartbeat_fresh now e.catch_settings.heartbeat_timeout = true)
    (h3 : e.leader.is_position_fresh now e.catch_settings.position_timeout = true)
    (h4 : e.follower.is_position_fresh now e.catch_settings.position_timeout = false) :
    (compute_intercept geo e now sel).2.2 = none ∧
      (compute_intercept geo e now sel).1.current_status =
        some SystemStatus.waitingFollowerPosition := by
  have : compute_intercept geo e now sel =
      ((set_system_status e SystemStatus.waitingFollowerPosition).1,
       (set_system_status e SystemStatus.waitingFollowerPosition).2, none) := by
    simp only [compute_intercept, h1, h2, h3, h4, eq_self_iff_true, not_true,
      Bool.false_eq_true, not_false_eq_true, if_true, if_false]
  rw [this]
  exact ⟨rfl, set_system_status_current e _⟩

theorem ci_blocked_null_pos (geo : Geo) (e : Engine) (now : ℚ) (sel : SpeedSelection)
    (h1 : e.leader.is_heartbeat_fresh now e.catch_settings.heartbeat_timeout = true)
    (h2 : e.follower.is_heartbeat_fresh now e.catch_settings.heartbeat_timeout = true)
    (h3 : e.leader.is_position_fresh now e.catch_settings.position_timeout = true)
    (h4 : e.follower.is_position_fresh now e.catch_settings.position_timeout = true)
    (h5 : (e.leader.lat.isNone || e.leader.lon.isNone ||
        e.follower.lat.isNone || e.follower.lon.isNone) = true) :
    (compute_intercept geo e now sel).2.2 = none ∧
      (compute_intercept geo e now sel).1.current_status =
        some SystemStatus.incompleteTelemetry := by
  have : compute_intercept geo e now sel =
      ((set_system_status e SystemStatus.incompleteTelemetry).1,
       (set_system_status e SystemStatus.incompleteTelemetry).2, none) := by
    simp only [compute_intercept, h1, h2, h3, h4, h5, eq_self_iff_true, not_true,
      if_true, if_false]
  rw [this]
  exact ⟨rfl, set_system_status_current e _⟩

theorem ci_blocked_disarmed (geo : Geo) (e : Engine) (now : ℚ) (sel : SpeedSelection)
    (h1 : e.leader.is_heartbeat_fresh now e.catch_settings.heartbeat_timeout = true)
    (h2 : e.follower.is_heartbeat_fresh now e.catch_settings.heartbeat_timeout = true)
    (h3 : e.leader.is_position_fresh now e.catch_settings.position_timeout = true)
    (h4 : e.follower.is_position_fresh now e.catch_settings.position_timeout = true)
    (h5 : (e.leader.lat.isNone || e.leader.lon.isNone ||
        e.follower.lat.isNone || e.follower.lon.isNone) = false)
    (h6 : e.follower.armed = false) :
    (compute_intercept geo e now sel).2.2 = none ∧
      (compute_intercept geo e now sel).1.current_status =
        some SystemStatus.followerDisarmed := by
  have : compute_intercept geo e now sel =
      ((set_system_status e SystemStatus.followerDisarmed).1,
       (set_system_status e SystemStatus.followerDisarmed).2, none) := by
    simp only [compute_intercept, h1, h2, h3, h4, h5, h6, eq_self_iff_true, not_true,
      Bool.false_eq_true, not_false_eq_true, if_true, if_false]
  rw [this]
  exact ⟨rfl, set_system_status_current e _⟩

theorem ci_blocked_mode (geo : Geo) (e : Engine) (now : ℚ) (sel : SpeedSelection)
    (h1 : e.leader.is_heartbeat_fresh now e.catch_settings.heartbeat_timeout = true)
    (h2 : e.follower.is_heartbeat_fresh now e.catch_settings.heartbeat_timeout = true)
    (h3 : e.leader.is_position_fresh now e.catch_settings.position_timeout = true)
    (h4 : e.follower.is_position_fresh now e.catch_settings.position_timeout = true)
    (h5 : (e.leader.lat.isNone || e.leader.lon.isNone ||
        e.follower.lat.isNone || e.follower.lon.isNone) = false)
    (h6 : e.follower.armed = true)
    (h7 : allowed_mode e.follower.mode = false) :
    (compute_intercept geo e now sel).2.2 = none ∧
      (compute_intercept geo e now sel).1.current_status =
        some (SystemStatus.followerBadMode e.follower.mode) := by
  have : compute_intercept geo e now sel =
      ((set_system_status e (SystemStatus.followerBadMode e.follower.mode)).1,
       (set_system_status e (SystemStatus.followerBadMode e.follower.mode)).2,
       none) := by
    simp only [compute_intercept, h1, h2, h3, h4, h5, h6, h7, eq_self_iff_true,
      not_true, Bool.false_eq_true, not_false_eq_true, if_true, if_false]
  rw [this]
  exact ⟨rfl, set_system_status_current e _⟩

theorem ci_blocked_min_distance (geo : Geo) (e : Engine) (now : ℚ)
    (sel : SpeedSelection)
    (h1 : e.leader.is_heartbeat_fresh now e.catch_settings.heartbeat_timeout = true)
    (h2 : e.follower.is_heartbeat_fresh now e.catch_settings.heartbeat_timeout = true)
    (h3 : e.leader.is_position_fresh now e.catch_settings.position_timeout = true)
    (h4 : e.follower.is_position_fresh now e.catch_settings.position_timeout = true)
    (h5 : (e.leader.lat.isNone || e.leader.lon.isNone ||
        e.follower.lat.isNone || e.follower.lon.isNone) = false)
    (h6 : e.follower.armed = true)
    (h7 : allowed_mode e.follower.mode = true)
    (h8 : geo.gps_distance (e.follower.lat.getD 0) (e.follower.lon.getD 0)
        (e.leader.lat.getD 0) (e.leader.lon.getD 0) < e.catch_settings.min_distance) :
    (compute_intercept geo e now sel).2.2 = none := by
  simp only [compute_intercept, h1, h2, h3, h4, h5, h6, h7, h8, eq_self_iff_true,
    not_true, Bool.false_eq_true, not_false_eq_true, if_true, if_false]

theorem compute_intercept_some_spec (geo : Geo) (e : Engine) (now : ℚ)
    (sel : SpeedSelection) (r : InterceptOk)
    (h : (compute_intercept geo e now sel).2.2 = some r) :
    r.min_closing = max e.catch_settings.min_closing (1 / 10) ∧
    (1 / 10 : ℚ) ≤ r.follower_speed ∧
    r.closing_rate_raw =
      r.follower_speed -
        r.leader_speed * geo.cos_deg (r.bearing_to_leader - r.leader_course) ∧
    (r.closing_rate_raw < r.min_closing →
      r.closing_rate = r.min_closing ∧ r.closing_limited = true) ∧
    (r.min_closing ≤ r.closing_rate_raw →
      r.closing_rate = r.closing_rate_raw ∧ r.closing_limited = false) ∧
    r.time_to_go = min (r.rng / r.closing_rate) e.catch_settings.max_lookahead ∧
    r.rng =
      geo.gps_distance (e.follower.lat.getD 0) (e.follower.lon.getD 0)
        (e.leader.lat.getD 0) (e.leader.lon.getD 0) ∧
    r.leader_speed = (e.leader.speed geo).getD 0 ∧
    r.offset_distance = r.leader_speed * r.time_to_go ∧
    (r.predicted_lat, r.predicted_lon) =
      geo.gps_newpos (e.leader.lat.getD 0) (e.leader.lon.getD 0) r.leader_course
        r.offset_distance ∧
    r.target_alt =
      (if e.catch_settings.use_relative_alt then e.leader.rel_alt.getD 0
       else e.leader.amsl_alt.getD 0) + e.catch_settings.target_alt_offset := by
  rcases hb1 : e.leader.is_heartbeat_fresh now e.catch_settings.heartbeat_timeout with _ | _
  · rw [(ci_blocked_leader_hb geo e now sel hb1).1] at h
    exact Option.noConfusion h
  rcases hb2 : e.follower.is_heartbeat_fresh now e.catch_settings.heartbeat_timeout with _ | _
  · rw [(ci_blocked_follower_hb geo e now sel hb1 hb2).1] at h
    exact Option.noConfusion h
  rcases hb3 : e.leader.is_position_fresh now e.catch_settings.position_timeout with _ | _
  · rw [(ci_blocked_leader_pos geo e now sel hb1 hb2 hb3).1] at h
    exact Option.noConfusion h
  rcases hb4 : e.follower.is_position_fresh now e.catch_settings.position_timeout with _ | _
  · rw [(ci_blocked_follower_pos geo e now sel hb1 hb2 hb3 hb4).1] at h
    exact Option.noConfusion h
  rcases hb5 : (e.leader.lat.isNone || e.leader.lon.isNone ||
      e.follower.lat.isNone || e.follower.lon.isNone) with _ | _
  swap
  · rw [(ci_blocked_null_pos geo e now sel hb1 hb2 hb3 hb4 hb5).1] at h
    exact Option.noConfusion h
  rcases hb6 : e.follower.armed with _ | _
  · rw [(ci_blocked_disarmed geo e now sel hb1 hb2 hb3 hb4 hb5 hb6).1] at h
    exact Option.noConfusion h
  rcases hb7 : allowed_mode e.follower.mode with _ | _
  · rw [(ci_blocked_mode geo e now sel hb1 hb2 hb3 hb4 hb5 hb6 hb7).1] at h
    exact Option.noConfusion h
  by_cases hb8 : geo.gps_distance (e.follower.lat.getD 0) (e.follower.lon.getD 0)
      (e.leader.lat.getD 0) (e.leader.lon.getD 0) < e.catch_settings.min_distance
  · rw [ci_blocked_min_distance geo e now sel hb1 hb2 hb3 hb4 hb5 hb6 hb7 hb8] at h
    exact Option.noConfusion h
  simp only [compute_intercept, hb1, hb2, hb3, hb4, hb5, hb6, hb7, hb8,
    eq_self_iff_true, not_true, Bool.false_eq_true, not_false_eq_true,
    if_true, if_false] at h
  replace h := Option.some_injective _ h
  subst h
  refine ⟨rfl, follower_speed_step_floor geo e sel, rfl, ?_, ?_, rfl, rfl, rfl, rfl,
    rfl, rfl⟩
  · intro hlt
    dsimp only at hlt ⊢
    rw [if_pos hlt]
    exact ⟨rfl, rfl⟩
  · intro hle
    dsimp only at hle ⊢
    rw [if_neg (not_lt.mpr hle)]
    exact ⟨rfl, rfl⟩

/-- Helper: the closing rate of a successful solve is at least 0.1,
whichever side of the clamp was taken. -/
theorem closing_rate_lower_bound (geo : Geo) (e : Engine) (now : ℚ)
    (sel : SpeedSelection) (r : InterceptOk)
    (h : (compute_intercept geo e now sel).2.2 = some r) :
    (1 / 10 : ℚ) ≤ r.closing_rate := by
  obtain ⟨hmc, hfs, hraw, hclamp, hnoclamp, -⟩ :=
    compute_intercept_some_spec geo e now sel r h
  rcases lt_or_le r.closing_rate_raw r.min_closing with hlt | hle
  · rw [(hclamp hlt).1, hmc]
    exact le_max_right _ _
  · rw [(hnoclamp hle).1]
    exact le_trans (hmc ▸ le_max_right _ _) hle

/-- The successful solve that `wEngine` produces at time 10: range 100 m,
stationary leader, follower speed 12 m/s from telemetry, no clamping. -/
def wResult : InterceptOk where
  predicted_lat := 10
  predicted_lon := 20
  target_alt := 100
  time_to_go := 25 / 3
  rng := 100
  bearing_to_leader := 0
  leader_course := 0
  leader_speed := 0
  follower_speed := 12
  speed_from_telemetry := true
  closing_rate_raw := 12
  closing_rate := 12
  closing_limited := false
  min_closing := 1
  offset_distance := 0

/-- Concrete evaluation of the solver on the witness scenario. -/
theorem wEngine_solve : (compute_intercept wGeo wEngine 10 wSel).2.2 = some wResult := by
  have hmode : allowed_mode "GUIDED" = true := by decide
  norm_num [compute_intercept, follower_speed_step, set_system_status, wGeo, wEngine,
    wLeader, wFollower, wSel, wResult, VehicleState.is_heartbeat_fresh,
    VehicleState.is_position_fresh, VehicleState.speed, hmode, qmod]

/-- C10: in `compute_intercept` the closing rate used as the divisor of
the time-to-go division is always at least 0.1 m/s regardless of
configuration: the configured minimum closing rate is itself floored at
0.1 before clamping, the follower speed used (telemetry-smoothed or
fallback) is floored at 0.1, and hence the closing rate is at least 0.1,
strictly positive in particular, so `range / closing_rate` never divides
by zero or by a negative number. -/
theorem catchleader_C10_divisor_floor (geo : Geo) (e : Engine) (now : ℚ)
    (sel : SpeedSelection) (r : InterceptOk)
    (h : (compute_intercept geo e now sel).2.2 = some r) :
    r.min_closing = max e.catch_settings.min_closing (1 / 10) ∧
    (1 / 10 : ℚ) ≤ r.min_closing ∧
    (1 / 10 : ℚ) ≤ r.follower_speed ∧
    (1 / 10 : ℚ) ≤ r.closing_rate ∧ 0 < r.closing_rate := by
  obtain ⟨hmc, hfs, -⟩ := compute_intercept_some_spec geo e now sel r h
  have hcr := closing_rate_lower_bound geo e now sel r h
  exact ⟨hmc, hmc ▸ le_max_right _ _, hfs, hcr,
    lt_of_lt_of_le (by norm_num) hcr⟩

/-- C10 witness: the witness scenario solves successfully and its
closing rate is positive. -/
theorem catchleader_C10_witness :
    (compute_intercept wGeo wEngine 10 wSel).2.2 = some wResult ∧
    (1 / 10 : ℚ) ≤ wResult.closing_rate ∧ 0 < wResult.closing_rate := by
  obtain ⟨-, -, -, h4, h5⟩ :=
    catchleader_C10_divisor_floor wGeo wEngine 10 wSel wResult wEngine_solve
  exact ⟨wEngine_solve, h4, h5⟩

/-- C1 counterexample scaffolding: the operator configures
`min_closing = 0.05`, the leader recedes at 0.03 m/s along the line of
sight and the follower's measured speed sits at the 0.1 m/s floor, so
the raw closing rate is 0.07. -/
def cexC1Engine : Engine :=
  { wEngine with
    catch_settings := { min_closing := 1 / 20 }
    leader := { wLeader with vx := some (3 / 100), vy := some 0 }
    follower := { wFollower with vx := some (1 / 10), vy := some 0 } }

/-- The solve that `cexC1Engine` produces: the raw closing rate 0.07 is
at or above the configured minimum 0.05, yet the code clamps to the
effective minimum 0.1 and sets the flag. -/
def cexC1Result : InterceptOk where
  predicted_lat := 10
  predicted_lon := 83 / 4
  target_alt := 100
  time_to_go := 25
  rng := 100
  bearing_to_leader := 0
  leader_course := 0
  leader_speed := 3 / 100
  follower_speed := 1 / 10
  speed_from_telemetry := true
  closing_rate_raw := 7 / 100
  closing_rate := 1 / 10
  closing_limited := true
  min_closing := 1 / 10
  offset_distance := 3 / 4

/-- C1 counterexample: a concrete solve in which the raw closing rate is
at or above the configured minimum closing rate, yet the clamped flag is
set and the closing rate used is neither the raw value nor the
configured minimum — refuting both halves of the claim as stated (the
code clamps against `max(min_closing, 0.1)`, not against the configured
minimum). -/
theorem catchleader_C1_counterexample :
    (compute_intercept wGeo cexC1Engine 10 wSel).2.2 = some cexC1Result ∧
    cexC1Engine.catch_settings.min_closing ≤ cexC1Result.closing_rate_raw ∧
    cexC1Result.closing_limited = true ∧
    cexC1Result.closing_rate ≠ cexC1Result.closing_rate_raw ∧
    cexC1Result.closing_rate ≠ cexC1Engine.catch_settings.min_closing := by
  have hmode : allowed_mode "GUIDED" = true := by decide
  refine ⟨?_, by norm_num [cexC1Engine, cexC1Result], rfl,
    by norm_num [cexC1Result], by norm_num [cexC1Engine, cexC1Result]⟩
  norm_num [compute_intercept, follower_speed_step, set_system_status, wGeo,
    cexC1Engine, wEngine, wLeader, wFollower, wSel, cexC1Result,
    VehicleState.is_heartbeat_fresh, VehicleState.is_position_fresh,
    VehicleState.speed, hmode, qmod, abs_of_nonneg]

/-- C1 (amended): whenever the raw closing rate is below the effective
minimum closing rate `max(min_closing, 0.1)`, the closing rate used for
the time-to-go division equals that effective minimum (never the raw
value) and the clamped flag is set; when the raw closing rate is at or
above the effective minimum, the raw value is used and the flag is not
set. -/
theorem catchleader_C1_clamp_effective_minimum (geo : Geo) (e : Engine) (now : ℚ)
    (sel : SpeedSelection) (r : InterceptOk)
    (h : (compute_intercept geo e now sel).2.2 = some r) :
    (r.closing_rate_raw < max e.catch_settings.min_closing (1 / 10) →
      r.closing_rate = max e.catch_settings.min_closing (1 / 10) ∧
      r.closing_limited = true) ∧
    (max e.catch_settings.min_closing (1 / 10) ≤ r.closing_rate_raw →
      r.closing_rate = r.closing_rate_raw ∧ r.closing_limited = false) := by
  obtain ⟨hmc, -, -, hcl, hncl, -⟩ := compute_intercept_some_spec geo e now sel r h
  rw [← hmc]
  exact ⟨hcl, hncl⟩

/-- C1 witness: in the witness scenario the raw closing rate 12 is above
the effective minimum 1, so the raw value is used unclamped. -/
theorem catchleader_C1_witness :
    (compute_intercept wGeo wEngine 10 wSel).2.2 = some wResult ∧
    wResult.closing_rate = wResult.closing_rate_raw ∧
    wResult.closing_limited = false := by
  have hm :=
    (catchleader_C1_clamp_effective_minimum wGeo wEngine 10 wSel wResult
        wEngine_solve).2
      (by norm_num [wEngine, wResult])
  exact ⟨wEngine_solve, hm.1, hm.2⟩

/-- C2: `compute_intercept` checks its preconditions in exactly this
order — leader heartbeat fresh, follower heartbeat fresh, leader
position fresh, follower position fresh, both positions non-null,
follower armed, follower flight mode in the case-insensitive allow-list
{GUIDED, GUIDED_NOGPS, POSHOLD, LOITER} — and the first failing one
short-circuits with its own blocked status and no target; in particular
a state with fresh telemetry and non-null positions but a disarmed
follower is blocked with the disarmed status.  The final conjunct
records that the seven blocked statuses are pairwise distinct. -/
theorem catchleader_C2_precondition_order (geo : Geo) (e : Engine) (now : ℚ)
    (sel : SpeedSelection) :
    (e.leader.is_heartbeat_fresh now e.catch_settings.heartbeat_timeout = false →
      (compute_intercept geo e now sel).2.2 = none ∧
      (compute_intercept geo e now sel).1.current_status =
        some SystemStatus.waitingLeaderHeartbeat) ∧
    (e.leader.is_heartbeat_fresh now e.catch_settings.heartbeat_timeout = true →
      e.follower.is_heartbeat_fresh now e.catch_settings.heartbeat_timeout = false →
      (compute_intercept geo e now sel).2.2 = none ∧
      (compute_intercept geo e now sel).1.current_status =
        some SystemStatus.waitingFollowerHeartbeat) ∧
    (e.leader.is_heartbeat_fresh now e.catch_settings.heartbeat_timeout = true →
      e.follower.is_heartbeat_fresh now e.catch_settings.heartbeat_timeout = true →
      e.leader.is_position_fresh now e.catch_settings.position_timeout = false →
      (compute_intercept geo e now sel).2.2 = none ∧
      (compute_intercept geo e now sel).1.current_status =
        some SystemStatus.waitingLeaderPosition) ∧
    (e.leader.is_heartbeat_fresh now e.catch_settings.heartbeat_timeout = true →
      e.follower.is_heartbeat_fresh now e.catch_settings.heartbeat_timeout = true →
      e.leader.is_position_fresh now e.catch_settings.position_timeout = true →
      e.follower.is_position_fresh now e.catch_settings.position_timeout = false →
      (compute_intercept geo e now sel).2.2 = none ∧
      (compute_intercept geo e now sel).1.current_status =
        some SystemStatus.waitingFollowerPosition) ∧
    (e.leader.is_heartbeat_fresh now e.catch_settings.heartbeat_timeout = true →
      e.follower.is_heartbeat_fresh now e.catch_settings.heartbeat_timeout = true →
      e.leader.is_position_fresh now e.catch_settings.position_timeout = true →
      e.follower.is_position_fresh now e.catch_settings.position_timeout = true →
      (e.leader.lat.isNone || e.leader.lon.isNone ||
        e.follower.lat.isNone || e.follower.lon.isNone) = true →
      (compute_intercept geo e now sel).2.2 = none ∧
      (compute_intercept geo e now sel).1.current_status =
        some SystemStatus.incompleteTelemetry) ∧
    (e.leader.is_heartbeat_fresh now e.catch_settings.heartbeat_timeout = true →
      e.follower.is_heartbeat_fresh now e.catch_settings.heartbeat_timeout = true →
      e.leader.is_position_fresh now e.catch_settings.position_timeout = true →
      e.follower.is_position_fresh now e.catch_settings.position_timeout = true →
      (e.leader.lat.isNone || e.leader.lon.isNone ||
        e.follower.lat.isNone || e.follower.lon.isNone) = false →
      e.follower.armed = false →
      (compute_intercept geo e now sel).2.2 = none ∧
      (compute_intercept geo e now sel).1.current_status =
        some SystemStatus.followerDisarmed) ∧
    (e.leader.is_heartbeat_fresh now e.catch_settings.heartbeat_timeout = true →
      e.follower.is_heartbeat_fresh now e.catch_settings.heartbeat_timeout = true →
      e.leader.is_position_fresh now e.catch_settings.position_timeout = true →
      e.follower.is_position_fresh now e.catch_settings.position_timeout = true →
      (e.leader.lat.isNone || e.leader.lon.isNone ||
        e.follower.lat.isNone || e.follower.lon.isNone) = false →
      e.follower.armed = true →
      allowed_mode e.follower.mode = false →
      (compute_intercept geo e now sel).2.2 = none ∧
      (compute_intercept geo e now sel).1.current_status =
        some (SystemStatus.followerBadMode e.follower.mode)) ∧
    [SystemStatus.waitingLeaderHeartbeat, SystemStatus.waitingFollowerHeartbeat,
      SystemStatus.waitingLeaderPosition, SystemStatus.waitingFollowerPosition,
      SystemStatus.incompleteTelemetry, SystemStatus.followerDisarmed,
      SystemStatus.followerBadMode e.follower.mode].Pairwise (· ≠ ·) := by
  refine ⟨ci_blocked_leader_hb geo e now sel, ci_blocked_follower_hb geo e now sel,
    ci_blocked_leader_pos geo e now sel, ci_blocked_follower_pos geo e now sel,
    ci_blocked_null_pos geo e now sel, ci_blocked_disarmed geo e now sel,
    ci_blocked_mode geo e now sel, ?_⟩
  simp [List.pairwise_cons]

/-- Disarmed follower for the C2 witness: telemetry all fresh, positions
present, mode allowed, but not armed. -/
def wEngineDisarmed : Engine :=
  { wEngine with follower := { wFollower with armed := false } }

/-- C2 witness: the disarmed scenario is blocked with the disarmed
status and produces no target. -/
theorem catchleader_C2_witness :
    (compute_intercept wGeo wEngineDisarmed 10 wSel).2.2 = none ∧
    (compute_intercept wGeo wEngineDisarmed 10 wSel).1.current_status =
      some SystemStatus.followerDisarmed := by
  obtain ⟨-, -, -, -, -, h6, -⟩ :=
    catchleader_C2_precondition_order wGeo wEngineDisarmed 10 wSel
  refine h6 ?_ ?_ ?_ ?_ ?_ ?_ <;>
    norm_num [wEngineDisarmed, wEngine, wLeader, wFollower,
      VehicleState.is_heartbeat_fresh, VehicleState.is_position_fresh]

/-- C7: in a successful solve, time-to-go equals
`min(range / closing_rate, max_lookahead)` and so never exceeds the
configured max lookahead; and when the leader is stationary the offset
distance is zero, so the predicted intercept point equals the leader's
current position (given that the great-circle forward projection by
distance zero returns its input point, as the specification states of
`gps_newpos`), and — when the follower speed used is at or above the
effective minimum closing rate and the uncapped quotient is within the
lookahead — time-to-go equals range divided by the follower speed
used. -/
theorem catchleader_C7_lookahead_and_stationary :
    (∀ (geo : Geo) (e : Engine) (now : ℚ) (sel : SpeedSelection) (r : InterceptOk),
      (compute_intercept geo e now sel).2.2 = some r →
      r.time_to_go = min (r.rng / r.closing_rate) e.catch_settings.max_lookahead ∧
      r.time_to_go ≤ e.catch_settings.max_lookahead) ∧
    (∀ (geo : Geo) (e : Engine) (now : ℚ) (sel : SpeedSelection) (r : InterceptOk),
      (compute_intercept geo e now sel).2.2 = some r →
      e.leader.vx = some 0 → e.leader.vy = some 0 → geo.hypot 0 0 = 0 →
      r.leader_speed = 0 ∧
      r.offset_distance = 0 ∧
      (geo.gps_newpos (e.leader.lat.getD 0) (e.leader.lon.getD 0) r.leader_course 0 =
          (e.leader.lat.getD 0, e.leader.lon.getD 0) →
        r.predicted_lat = e.leader.lat.getD 0 ∧
        r.predicted_lon = e.leader.lon.getD 0) ∧
      (max e.catch_settings.min_closing (1 / 10) ≤ r.follower_speed →
        r.rng / r.follower_speed ≤ e.catch_settings.max_lookahead →
        r.time_to_go = r.rng / r.follower_speed)) := by
  constructor
  · intro geo e now sel r h
    obtain ⟨-, -, -, -, -, httg, -⟩ := compute_intercept_some_spec geo e now sel r h
    exact ⟨httg, httg ▸ min_le_right _ _⟩
  · intro geo e now sel r h hvx hvy hhyp
    obtain ⟨hmc, -, hraw, -, hncl, httg, -, hls, hoff, hpred, -⟩ :=
      compute_intercept_some_spec geo e now sel r h
    have hls0 : r.leader_speed = 0 := by
      rw [hls, VehicleState.speed, hvx, hvy]
      simpa using hhyp
    have hoff0 : r.offset_distance = 0 := by rw [hoff, hls0, zero_mul]
    refine ⟨hls0, hoff0, ?_, ?_⟩
    · intro hnp
      rw [hoff0, hnp] at hpred
      exact ⟨congrArg Prod.fst hpred, congrArg Prod.snd hpred⟩
    · intro hminle hrle
      have hraw' : r.closing_rate_raw = r.follower_speed := by
        rw [hraw, hls0, zero_mul, sub_zero]
      have hcr : r.closing_rate = r.follower_speed := by
        rw [(hncl (by rw [hmc, hraw']; exact hminle)).1, hraw']
      rw [httg, hcr]
      exact min_eq_left hrle

/-- C7 witness: the witness scenario (stationary leader, follower speed
12, range 100, lookahead 25) gives time-to-go 100/12 ≤ 25 and the
predicted point is exactly the leader's position. -/
theorem catchleader_C7_witness :
    (compute_intercept wGeo wEngine 10 wSel).2.2 = some wResult ∧
    wResult.time_to_go ≤ wEngine.catch_settings.max_lookahead ∧
    wResult.offset_distance = 0 ∧
    wResult.predicted_lat = wEngine.leader.lat.getD 0 ∧
    wResult.predicted_lon = wEngine.leader.lon.getD 0 ∧
    wResult.time_to_go = wResult.rng / wResult.follower_speed := by
  have h1 :=
    (catchleader_C7_lookahead_and_stationary.1 wGeo wEngine 10 wSel wResult
      wEngine_solve).2
  obtain ⟨-, hoff, hpred, httg⟩ :=
    catchleader_C7_lookahead_and_stationary.2 wGeo wEngine 10 wSel wResult
      wEngine_solve (by norm_num [wEngine, wLeader]) (by norm_num [wEngine, wLeader])
      (by norm_num [wGeo])
  obtain ⟨hplat, hplon⟩ := hpred (by norm_num [wGeo, wResult, wEngine, wLeader])
  exact ⟨wEngine_solve, h1, hoff, hplat, hplon,
    httg (by norm_num [wEngine, wResult]) (by norm_num [wEngine, wResult])⟩

theorem filter_target_settings (e : Engine) (t : ℚ × ℚ × ℚ) :
    (filter_target e t).1.catch_settings = e.catch_settings := by
  unfold filter_target
  rcases e.filtered_target with _ | p
  · rfl
  · dsimp only
    split <;> rfl

theorem filter_target_unset (e : Engine) (t : ℚ × ℚ × ℚ)
    (h : e.filtered_target = none) :
    (filter_target e t).2 = t ∧ (filter_target e t).1.filtered_target = some t := by
  simp [filter_target, h]

theorem filter_target_alpha_ge_one (e : Engine) (t : ℚ × ℚ × ℚ)
    (h : 1 ≤ e.catch_settings.target_filter_alpha) :
    (filter_target e t).2 = t ∧ (filter_target e t).1.filtered_target = some t := by
  have ha : effective_alpha e = 1 := by
    unfold effective_alpha
    rw [min_eq_left h]
    exact max_eq_right zero_le_one
  rcases hft : e.filtered_target with _ | p
  · simp [filter_target, hft]
  · simp [filter_target, hft, ha]

theorem filter_target_ema (e : Engine) (t p : ℚ × ℚ × ℚ)
    (hsome : e.filtered_target = some p) (hlt : effective_alpha e < 1) :
    (filter_target e t).2 =
      (p.1 + effective_alpha e * (t.1 - p.1),
       p.2.1 + effective_alpha e * (t.2.1 - p.2.1),
       p.2.2 + effective_alpha e * (t.2.2 - p.2.2)) ∧
    (filter_target e t).1.filtered_target =
      some (p.1 + effective_alpha e * (t.1 - p.1),
            p.2.1 + effective_alpha e * (t.2.1 - p.2.1),
            p.2.2 + effective_alpha e * (t.2.2 - p.2.2)) := by
  have hnle : ¬ (1 ≤ effective_alpha e) := not_le.mpr hlt
  simp [filter_target, hsome, hnle]

theorem filter_target_alpha_zero (e : Engine) (t p : ℚ × ℚ × ℚ)
    (ha : e.catch_settings.target_filter_alpha = 0)
    (hsome : e.filtered_target = some p) :
    (filter_target e t).2 = p ∧ (filter_target e t).1.filtered_target = some p := by
  have ha0 : effective_alpha e = 0 := by
    unfold effective_alpha
    rw [ha]
    norm_num
  obtain ⟨h1, h2⟩ := filter_target_ema e t p hsome (by rw [ha0]; norm_num)
  rw [ha0] at h1 h2
  simp only [zero_mul, add_zero] at h1 h2
  exact ⟨h1, h2⟩

theorem filter_target_run_alpha_zero (ts : List (ℚ × ℚ × ℚ)) (e : Engine)
    (p : ℚ × ℚ × ℚ) (ha : e.catch_settings.target_filter_alpha = 0)
    (hsome : e.filtered_target = some p) :
    ∀ q ∈ (filter_target_run e ts).2, q = p := by
  induction ts generalizing e with
  | nil => simp [filter_target_run]
  | cons t ts ih =>
    intro q hq
    obtain ⟨h1, h2⟩ := filter_target_alpha_zero e t p ha hsome
    rcases List.mem_cons.mp hq with hq | hq
    · rw [hq, h1]
    · exact ih (filter_target e t).1
        ((filter_target_settings e t).symm ▸ ha) h2 q hq

/-- C8: the target filter satisfies — pass-through and state seeding when
the state is unset or the smoothing coefficient is at least 1.0;
otherwise a per-axis EMA `previous + alpha * (input - previous)` using
the clamped coefficient (the configuration surface documents the
coefficient as clamped to [0, 1]); with coefficient 0 the output never
changes after the first call; and a reset followed by one apply returns
the input exactly, regardless of prior history. -/
theorem catchleader_C8_filter_algebra :
    (∀ (e : Engine) (t : ℚ × ℚ × ℚ), e.filtered_target = none →
      (filter_target e t).2 = t ∧ (filter_target e t).1.filtered_target = some t) ∧
    (∀ (e : Engine) (t : ℚ × ℚ × ℚ), 1 ≤ e.catch_settings.target_filter_alpha →
      (filter_target e t).2 = t ∧ (filter_target e t).1.filtered_target = some t) ∧
    (∀ (e : Engine) (t p : ℚ × ℚ × ℚ), e.filtered_target = some p →
      effective_alpha e < 1 →
      (filter_target e t).2 =
        (p.1 + effective_alpha e * (t.1 - p.1),
         p.2.1 + effective_alpha e * (t.2.1 - p.2.1),
         p.2.2 + effective_alpha e * (t.2.2 - p.2.2))) ∧
    (∀ (ts : List (ℚ × ℚ × ℚ)) (e : Engine) (p : ℚ × ℚ × ℚ),
      e.catch_settings.target_filter_alpha = 0 → e.filtered_target = some p →
      ∀ q ∈ (filter_target_run e ts).2, q = p) ∧
    (∀ (e : Engine) (t : ℚ × ℚ × ℚ),
      (filter_target (reset_target_filter e) t).2 = t) :=
  ⟨filter_target_unset,
   filter_target_alpha_ge_one,
   fun e t p hsome hlt => (filter_target_ema e t p hsome hlt).1,
   filter_target_run_alpha_zero,
   fun e t => (filter_target_unset (reset_target_filter e) t rfl).1⟩

/-- Filter state holding (1, 2, 3) with the default coefficient 0.5. -/
def w8Engine : Engine := { wEngine with filtered_target := some (1, 2, 3) }

/-- Filter state holding (1, 2, 3) with coefficient 1. -/
def w8One : Engine :=
  { wEngine with catch_settings := { target_filter_alpha := 1 },
                 filtered_target := some (1, 2, 3) }

/-- Filter state holding (1, 2, 3) with coefficient 0. -/
def w8Zero : Engine :=
  { wEngine with catch_settings := { target_filter_alpha := 0 },
                 filtered_target := some (1, 2, 3) }

/-- C8 witness: concrete filter runs exercising every conjunct. -/
theorem catchleader_C8_witness :
    (filter_target wEngine (1, 2, 3)).2 = (1, 2, 3) ∧
    (filter_target w8One (10, 20, 30)).2 = (10, 20, 30) ∧
    (filter_target w8Engine (10, 20, 30)).2 = (11 / 2, 11, 33 / 2) ∧
    (∀ q ∈ (filter_target_run w8Zero [(10, 20, 30), (4, 4, 4)]).2, q = (1, 2, 3)) ∧
    (filter_target (reset_target_filter w8Engine) (7, 8, 9)).2 = (7, 8, 9) := by
  refine ⟨(catchleader_C8_filter_algebra.1 wEngine _ rfl).1,
    (catchleader_C8_filter_algebra.2.1 w8One _ (by norm_num [w8One])).1, ?_,
    catchleader_C8_filter_algebra.2.2.2.1 _ w8Zero (1, 2, 3)
      (by norm_num [w8Zero]) rfl,
    catchleader_C8_filter_algebra.2.2.2.2 w8Engine _⟩
  have h := catchleader_C8_filter_algebra.2.2.1 w8Engine (10, 20, 30) (1, 2, 3) rfl
    (by norm_num [effective_alpha, w8Engine, wEngine])
  rw [h]
  norm_num [effective_alpha, w8Engine, wEngine]

theorem qmod_range (x : ℚ) : 0 ≤ qmod x 360 ∧ qmod x 360 < 360 := by
  have h1 : ((⌊x / 360⌋ : ℤ) : ℚ) ≤ x / 360 := Int.floor_le _
  have h2 : x / 360 < (⌊x / 360⌋ : ℤ) + 1 := Int.lt_floor_add_one _
  have h3 : x / 360 * 360 = x := div_mul_cancel₀ x (by norm_num)
  have h4 := mul_le_mul_of_nonneg_right h1 (by norm_num : (0 : ℚ) ≤ 360)
  have h5 := mul_lt_mul_of_pos_right h2 (by norm_num : (0 : ℚ) < 360)
  rw [h3] at h4 h5
  unfold qmod
  constructor <;> nlinarith [h4, h5]

/-- C9: `update_from_position` stores lat/lon scaled by 1e-7 degrees,
altitudes scaled by 1e-3 metres, velocities scaled by 1e-2 m/s, heading
scaled by 1e-2 degrees and normalised into [0, 360) by the floored
modulus, and stamps `last_update`; a missing heading field or the 65535
sentinel leaves the stored heading untouched while all other fields are
still updated; and the fixed-point conversion is exact, e.g. a raw
latitude of 123456789 becomes exactly 12.3456789 degrees. -/
theorem catchleader_C9_unit_conversion (v : VehicleState) (msg : GlobalPositionInt)
    (ts : ℚ) :
    (v.update_from_position msg ts).lat = some ((msg.lat : ℚ) * (1 / 10 ^ 7)) ∧
    (v.update_from_position msg ts).lon = some ((msg.lon : ℚ) * (1 / 10 ^ 7)) ∧
    (v.update_from_position msg ts).rel_alt =
      some ((msg.relative_alt : ℚ) * (1 / 1000)) ∧
    (v.update_from_position msg ts).amsl_alt = some ((msg.alt : ℚ) * (1 / 1000)) ∧
    (v.update_from_position msg ts).vx = some ((msg.vx : ℚ) * (1 / 100)) ∧
    (v.update_from_position msg ts).vy = some ((msg.vy : ℚ) * (1 / 100)) ∧
    (v.update_from_position msg ts).vz = some ((msg.vz : ℚ) * (1 / 100)) ∧
    (v.update_from_position msg ts).last_update = ts ∧
    (msg.hdg = none → (v.update_from_position msg ts).heading = v.heading) ∧
    (msg.hdg = some 65535 → (v.update_from_position msg ts).heading = v.heading) ∧
    (∀ h : ℤ, msg.hdg = some h → h ≠ 65535 →
      (v.update_from_position msg ts).heading =
        some (qmod ((h : ℚ) * (1 / 100)) 360) ∧
      0 ≤ qmod ((h : ℚ) * (1 / 100)) 360 ∧
      qmod ((h : ℚ) * (1 / 100)) 360 < 360) ∧
    (msg.lat = 123456789 →
      (v.update_from_position msg ts).lat = some (12.3456789 : ℚ)) := by
  refine ⟨rfl, rfl, rfl, rfl, rfl, rfl, rfl, rfl, ?_, ?_, ?_, ?_⟩
  · intro hn
    simp [VehicleState.update_from_position, hn]
  · intro hs
    simp [VehicleState.update_from_position, hs]
  · intro h hs hne
    obtain ⟨hr1, hr2⟩ := qmod_range ((h : ℚ) * (1 / 100))
    refine ⟨?_, hr1, hr2⟩
    simp [VehicleState.update_from_position, hs, hne]
  · intro hlat
    simp only [VehicleState.update_from_position, hlat]
    norm_num

/-- A concrete `GLOBAL_POSITION_INT` message for the C9 witness. -/
def wMsg : GlobalPositionInt where
  lat := 123456789
  lon := 200000000
  alt := 100000
  relative_alt := 50000
  vx := 300
  vy := 400
  vz := -100
  hdg := some 4500

/-- A concrete message carrying the 65535 heading sentinel. -/
def wMsgSentinel : GlobalPositionInt := { wMsg with hdg := some 65535 }

/-- C9 witness: the concrete message round-trips exactly and the
sentinel leaves the heading untouched. -/
theorem catchleader_C9_witness :
    (wLeader.update_from_position wMsg 11).lat = some (12.3456789 : ℚ) ∧
    (wLeader.update_from_position wMsg 11).vx = some 3 ∧
    (wLeader.update_from_position wMsg 11).heading = some 45 ∧
    (wLeader.update_from_position wMsg 11).last_update = 11 ∧
    (wLeader.update_from_position wMsgSentinel 11).heading = wLeader.heading := by
  obtain ⟨hlat, -, -, -, hvx, -, -, hlu, -, -, hhdg, hrt⟩ :=
    catchleader_C9_unit_conversion wLeader wMsg 11
  obtain ⟨-, -, -, -, -, -, -, -, -, hsent, -, -⟩ :=
    catchleader_C9_unit_conversion wLeader wMsgSentinel 11
  obtain ⟨hh, -, -⟩ := hhdg 4500 rfl (by norm_num)
  refine ⟨hrt rfl, ?_, ?_, hlu, hsent rfl⟩
  · rw [hvx]
    norm_num [wMsg]
  · rw [hh]
    norm_num [qmod, wMsg]

/-- C5 (amended): with profile CUSTOM the selector returns
`max(configuredSpeed, 0)` as the selection's value — the configured
value verbatim whenever it is non-negative, but clamped to 0 for a
negative configured value — with the configured-default source
(`follower_speed`), fallback false and forced_velocity false; a
non-positive resolved value only appends the warning about the
downstream 0.1 m/s floor. -/
theorem catchleader_C5_custom_profile (store : ParamStore) (s : CatchSettings)
    (h : s.speed_profile = "custom") :
    (resolve_speed_selection store s).profile = "custom" ∧
    (resolve_speed_selection store s).value = max s.follower_speed 0 ∧
    (0 ≤ s.follower_speed →
      (resolve_speed_selection store s).value = s.follower_speed) ∧
    (resolve_speed_selection store s).source = "follower_speed" ∧
    (resolve_speed_selection store s).fallback = false ∧
    (resolve_speed_selection store s).forced_velocity = false ∧
    (0 < (resolve_speed_selection store s).value →
      (resolve_speed_selection store s).warning = []) ∧
    ((resolve_speed_selection store s).value ≤ 0 →
      (resolve_speed_selection store s).warning = [SpeedWarning.nonPositiveSpeed]) := by
  have hlow : py_lower "custom" = "custom" := by decide
  have hne1 : ("custom" = "cruise") = False := eq_false (by decide)
  have hne2 : ("custom" = "max") = False := eq_false (by decide)
  norm_num [resolve_speed_selection, profile_candidates, first_usable_candidate, h,
    hlow, hne1, hne2]

/-- Settings with a negative configured speed (profile CUSTOM). -/
def cexC5Settings : CatchSettings := { follower_speed := -5 }

/-- C5 counterexample: with configured speed −5 the CUSTOM selection's
value is 0, not the configured value verbatim — the selector clamps
negative configured speeds at 0 (`value = max(follower_speed, 0.0)`,
line 639). -/
theorem catchleader_C5_counterexample :
    cexC5Settings.speed_profile = "custom" ∧
    cexC5Settings.follower_speed = -5 ∧
    (resolve_speed_selection emptyStore cexC5Settings).value = 0 ∧
    (resolve_speed_selection emptyStore cexC5Settings).value ≠
      cexC5Settings.follower_speed := by
  have hlow : py_lower "custom" = "custom" := by decide
  have hne1 : ("custom" = "cruise") = False := eq_false (by decide)
  have hne2 : ("custom" = "max") = False := eq_false (by decide)
  refine ⟨rfl, rfl, ?_, ?_⟩ <;>
    norm_num [resolve_speed_selection, profile_candidates, first_usable_candidate,
      cexC5Settings, hlow, hne1, hne2]

/-- C5 witness: the default settings (CUSTOM profile, configured speed
20) resolve to value 20 from the configured-default source with no
fallback and no warning. -/
theorem catchleader_C5_witness :
    (resolve_speed_selection emptyStore {}).value = 20 ∧
    (resolve_speed_selection emptyStore {}).source = "follower_speed" ∧
    (resolve_speed_selection emptyStore {}).fallback = false ∧
    (resolve_speed_selection emptyStore {}).forced_velocity = false ∧
    (resolve_speed_selection emptyStore {}).warning = [] := by
  obtain ⟨-, -, hv, hsrc, hfb, hforced, hw, -⟩ :=
    catchleader_C5_custom_profile emptyStore {} rfl
  have h20 : (resolve_speed_selection emptyStore {}).value = 20 := by
    rw [hv (by norm_num)]
  exact ⟨h20, hsrc, hfb, hforced, hw (by rw [h20]; norm_num)⟩

/-- Whether a candidate parameter resolves to a usable (strictly
positive after scaling) value — the keep test of the candidate loop. -/
def usable_candidate (store : ParamStore) (s : CatchSettings) (name : String)
    (scale : ℚ) : Bool :=
  match get_follower_param store s name with
  | some v => decide (0 < v * scale)
  | none => false

theorem fuc_cons_pos (store : ParamStore) (s : CatchSettings) (name : String)
    (scale : ℚ) (rest : List (String × ℚ)) (v : ℚ)
    (hget : get_follower_param store s name = some v) (hpos : 0 < v * scale) :
    first_usable_candidate store s ((name, scale) :: rest) =
      some (v * scale, name) := by
  simp [first_usable_candidate, hget, hpos]

theorem fuc_cons_skip (store : ParamStore) (s : CatchSettings) (name : String)
    (scale : ℚ) (rest : List (String × ℚ))
    (hun : usable_candidate store s name scale = false) :
    first_usable_candidate store s ((name, scale) :: rest) =
      first_usable_candidate store s rest := by
  unfold usable_candidate at hun
  rcases hget : get_follower_param store s name with _ | v
  · simp [first_usable_candidate, hget]
  · rw [hget] at hun
    simp only [decide_eq_false_iff_not] at hun
    simp [first_usable_candidate, hget, hun]

/-- C6 (amended): for profiles CRUISE and MAX the selector tries the
ordered candidate parameter list and returns the first candidate whose
scaled value is strictly positive as value and source, even if later
candidates are also positive (the later candidates are unconstrained in
each conjunct); if no candidate is usable it returns the configured
speed floored at 0 with fallback true and a warning naming every
candidate checked. -/
theorem catchleader_C6_candidate_order (store : ParamStore) (s : CatchSettings) :
    (s.speed_profile = "cruise" →
      (∀ v, get_follower_param store s "AIRSPEED_CRUISE" = some v → 0 < v →
        (resolve_speed_selection store s).value = v ∧
        (resolve_speed_selection store s).source = "AIRSPEED_CRUISE" ∧
        (resolve_speed_selection store s).fallback = false) ∧
      (∀ w, usable_candidate store s "AIRSPEED_CRUISE" 1 = false →
        get_follower_param store s "AIRSPEED_TRIM" = some w → 0 < w →
        (resolve_speed_selection store s).value = w ∧
        (resolve_speed_selection store s).source = "AIRSPEED_TRIM" ∧
        (resolve_speed_selection store s).fallback = false) ∧
      (∀ u, usable_candidate store s "AIRSPEED_CRUISE" 1 = false →
        usable_candidate store s "AIRSPEED_TRIM" 1 = false →
        get_follower_param store s "TRIM_ARSPD_CM" = some u → 0 < u * (1 / 100) →
        (resolve_speed_selection store s).value = u * (1 / 100) ∧
        (resolve_speed_selection store s).source = "TRIM_ARSPD_CM" ∧
        (resolve_speed_selection store s).fallback = false) ∧
      (usable_candidate store s "AIRSPEED_CRUISE" 1 = false →
        usable_candidate store s "AIRSPEED_TRIM" 1 = false →
        usable_candidate store s "TRIM_ARSPD_CM" (1 / 100) = false →
        (resolve_speed_selection store s).value = max s.follower_speed 0 ∧
        (resolve_speed_selection store s).fallback = true ∧
        SpeedWarning.paramsUnavailable "cruise" (max s.follower_speed 0)
            ["AIRSPEED_CRUISE", "AIRSPEED_TRIM", "TRIM_ARSPD_CM"] ∈
          (resolve_speed_selection store s).warning)) ∧
    (s.speed_profile = "max" →
      (resolve_speed_selection store s).forced_velocity = true ∧
      (∀ v, get_follower_param store s "AIRSPEED_MAX" = some v → 0 < v →
        (resolve_speed_selection store s).value = v ∧
        (resolve_speed_selection store s).source = "AIRSPEED_MAX" ∧
        (resolve_speed_selection store s).fallback = false) ∧
      (∀ w, usable_candidate store s "AIRSPEED_MAX" 1 = false →
        get_follower_param store s "ARSPD_FBW_MAX" = some w → 0 < w * (1 / 100) →
        (resolve_speed_selection store s).value = w * (1 / 100) ∧
        (resolve_speed_selection store s).source = "ARSPD_FBW_MAX" ∧
        (resolve_speed_selection store s).fallback = false) ∧
      (usable_candidate store s "AIRSPEED_MAX" 1 = false →
        usable_candidate store s "ARSPD_FBW_MAX" (1 / 100) = false →
        (resolve_speed_selection store s).value = max s.follower_speed 0 ∧
        (resolve_speed_selection store s).fallback = true ∧
        SpeedWarning.paramsUnavailable "max" (max s.follower_speed 0)
            ["AIRSPEED_MAX", "ARSPD_FBW_MAX"] ∈
          (resolve_speed_selection store s).warning)) := by
  constructor
  · intro h
    have hlow : py_lower "cruise" = "cruise" := by decide
    have hne0 : ("cruise" = "") = False := eq_false (by decide)
    have hne1 : ("cruise" = "custom") = False := eq_false (by decide)
    have hne2 : ("cruise" = "max") = False := eq_false (by decide)
    refine ⟨fun v hget hv => ?_, fun w h1 hget hw => ?_,
      fun u h1 h2 hget hu => ?_, fun h1 h2 h3 => ?_⟩
    · have hfound : first_usable_candidate store s
          [("AIRSPEED_CRUISE", 1), ("AIRSPEED_TRIM", 1),
           ("TRIM_ARSPD_CM", 1 / 100)] = some (v * 1, "AIRSPEED_CRUISE") :=
        fuc_cons_pos store s _ _ _ v hget (by rwa [mul_one])
      norm_num [resolve_speed_selection, profile_candidates, h, hlow, hne0, hne1,
        hne2, hfound]
    · have hfound : first_usable_candidate store s
          [("AIRSPEED_CRUISE", 1), ("AIRSPEED_TRIM", 1),
           ("TRIM_ARSPD_CM", 1 / 100)] = some (w * 1, "AIRSPEED_TRIM") := by
        rw [fuc_cons_skip store s _ _ _ h1]
        exact fuc_cons_pos store s _ _ _ w hget (by rwa [mul_one])
      norm_num [resolve_speed_selection, profile_candidates, h, hlow, hne0, hne1,
        hne2, hfound]
    · have hfound : first_usable_candidate store s
          [("AIRSPEED_CRUISE", 1), ("AIRSPEED_TRIM", 1),
           ("TRIM_ARSPD_CM", 1 / 100)] = some (u * (1 / 100), "TRIM_ARSPD_CM") := by
        rw [fuc_cons_skip store s _ _ _ h1, fuc_cons_skip store s _ _ _ h2]
        exact fuc_cons_pos store s _ _ _ u hget hu
      norm_num [resolve_speed_selection, profile_candidates, h, hlow, hne0, hne1,
        hne2, hfound]
    · have hfound : first_usable_candidate store s
          [("AIRSPEED_CRUISE", 1), ("AIRSPEED_TRIM", 1),
           ("TRIM_ARSPD_CM", 1 / 100)] = none := by
        rw [fuc_cons_skip store s _ _ _ h1, fuc_cons_skip store s _ _ _ h2,
          fuc_cons_skip store s _ _ _ h3]
        rfl
      refine ⟨?_, ?_, ?_⟩ <;>
        norm_num [resolve_speed_selection, profile_candidates, h, hlow, hne0, hne1,
          hne2, hfound] <;>
        split <;> simp
  · intro h
    have hlow : py_lower "max" = "max" := by decide
    have hne0 : ("max" = "") = False := eq_false (by decide)
    have hne1 : ("max" = "custom") = False := eq_false (by decide)
    have hne2 : ("max" = "cruise") = False := eq_false (by decide)
    refine ⟨?_, fun v hget hv => ?_, fun w h1 hget hw => ?_, fun h1 h2 => ?_⟩
    · norm_num [resolve_speed_selection, profile_candidates, h, hlow, hne0, hne1,
        hne2]
    · have hfound : first_usable_candidate store s
          [("AIRSPEED_MAX", 1), ("ARSPD_FBW_MAX", 1 / 100)] =
          some (v * 1, "AIRSPEED_MAX") :=
        fuc_cons_pos store s _ _ _ v hget (by rwa [mul_one])
      norm_num [resolve_speed_selection, profile_candidates, h, hlow, hne0, hne1,
        hne2, hfound]
    · have hfound : first_usable_candidate store s
          [("AIRSPEED_MAX", 1), ("ARSPD_FBW_MAX", 1 / 100)] =
          some (w * (1 / 100), "ARSPD_FBW_MAX") := by
        rw [fuc_cons_skip store s _ _ _ h1]
        exact fuc_cons_pos store s _ _ _ w hget hw
      norm_num [resolve_speed_selection, profile_candidates, h, hlow, hne0, hne1,
        hne2, hfound]
    · have hfound : first_usable_candidate store s
          [("AIRSPEED_MAX", 1), ("ARSPD_FBW_MAX", 1 / 100)] = none := by
        rw [fuc_cons_skip store s _ _ _ h1, fuc_cons_skip store s _ _ _ h2]
        rfl
      refine ⟨?_, ?_, ?_⟩ <;>
        norm_num [resolve_speed_selection, profile_candidates, h, hlow, hne0, hne1,
          hne2, hfound] <;>
        split <;> simp

/-- Settings selecting the CRUISE profile with a negative configured
speed. -/
def cexC6Settings : CatchSettings := { follower_speed := -5, speed_profile := "cruise" }

/-- C6 counterexample: with every cruise candidate absent and configured
speed −5, the fallback value is 0, not the configured speed — the
fallback too is floored at 0. -/
theorem catchleader_C6_counterexample :
    cexC6Settings.speed_profile = "cruise" ∧
    cexC6Settings.follower_speed = -5 ∧
    (resolve_speed_selection emptyStore cexC6Settings).fallback = true ∧
    (resolve_speed_selection emptyStore cexC6Settings).value = 0 ∧
    (resolve_speed_selection emptyStore cexC6Settings).value ≠
      cexC6Settings.follower_speed := by
  have hlow : py_lower "cruise" = "cruise" := by decide
  have hne0 : ("cruise" = "") = False := eq_false (by decide)
  have hne1 : ("cruise" = "custom") = False := eq_false (by decide)
  have hne2 : ("cruise" = "max") = False := eq_false (by decide)
  refine ⟨rfl, rfl, ?_, ?_, ?_⟩ <;>
    norm_num [resolve_speed_selection, profile_candidates, first_usable_candidate,
      get_follower_param, get_vehicle_param, lookup_first, emptyStore,
      cexC6Settings, hlow, hne0, hne1, hne2]

/-- Parameter store for the C6 witness: the follower publishes both
`AIRSPEED_CRUISE` (17) and `AIRSPEED_TRIM` (99). -/
def wStore : ParamStore := fun sy co =>
  if sy = 2 ∧ co = 1 then [("AIRSPEED_CRUISE", 17), ("AIRSPEED_TRIM", 99)] else []

/-- Settings selecting the CRUISE profile with default identity. -/
def w6Settings : CatchSettings := { speed_profile := "cruise" }

/-- C6 witness: with both candidates positive, the first one (17 via
`AIRSPEED_CRUISE`) wins even though `AIRSPEED_TRIM` = 99 is also
positive. -/
theorem catchleader_C6_witness :
    get_follower_param wStore w6Settings "AIRSPEED_CRUISE" = some 17 ∧
    get_follower_param wStore w6Settings "AIRSPEED_TRIM" = some 99 ∧
    (resolve_speed_selection wStore w6Settings).value = 17 ∧
    (resolve_speed_selection wStore w6Settings).source = "AIRSPEED_CRUISE" ∧
    (resolve_speed_selection wStore w6Settings).fallback = false := by
  have hup1 : py_upper "AIRSPEED_CRUISE" = "AIRSPEED_CRUISE" := by decide
  have hup2 : py_upper "AIRSPEED_TRIM" = "AIRSPEED_TRIM" := by decide
  have hget1 : get_follower_param wStore w6Settings "AIRSPEED_CRUISE" = some 17 := by
    norm_num [get_follower_param, get_vehicle_param, lookup_first, wStore,
      w6Settings, hup1]
  have hnct : ("AIRSPEED_CRUISE" = "AIRSPEED_TRIM") = False := eq_false (by decide)
  have hget2 : get_follower_param wStore w6Settings "AIRSPEED_TRIM" = some 99 := by
    norm_num [get_follower_param, get_vehicle_param, lookup_first, wStore,
      w6Settings, hup2, List.find?, hnct]
  obtain ⟨hcru, -⟩ := catchleader_C6_candidate_order wStore w6Settings
  obtain ⟨hv, hsrc, hfb⟩ := (hcru rfl).1 17 hget1 (by norm_num)
  exact ⟨hget1, hget2, hv, hsrc, hfb⟩

theorem clear_map_target_filtered (e : Engine) :
    (clear_map_target e).1.filtered_target = e.filtered_target := rfl

theorem clear_map_target_guidance (e : Engine) :
    (clear_map_target e).1.guidance_state = e.guidance_state := rfl

theorem sgs_hold_to_auto_filtered (store : ParamStore) (e : Engine)
    (h : e.guidance_state = "hold") :
    (set_guidance_state store e "auto").1.filtered_target = none := by
  have hne : ("auto" = "hold") = False := eq_false (by decide)
  simp [set_guidance_state, h, hne, update_speed_selection_filtered,
    set_system_status_filtered, reset_target_filter]

theorem sgs_auto_to_hold_filtered (store : ParamStore) (e : Engine)
    (h : e.guidance_state = "auto") :
    (set_guidance_state store e "hold").1.filtered_target = none := by
  have hne : ("hold" = "auto") = False := eq_false (by decide)
  simp [set_guidance_state, h, hne, clear_map_target_filtered,
    set_system_status_filtered, reset_target_filter]

theorem sgs_guidance_state (store : ParamStore) (e : Engine) (st : String)
    (h : st = "auto" ∨ st = "hold") :
    (set_guidance_state store e st).1.guidance_state = st := by
  rcases h with h | h <;> subst h
  · have hne : ¬ (("auto" ≠ "auto") ∧ ("auto" ≠ "hold")) := by simp
    simp only [set_guidance_state, if_neg hne]
    split <;>
      simp [update_speed_selection_guidance, set_system_status_guidance,
        reset_target_filter, clear_map_target_guidance] <;>
      split <;> rfl
  · have hne : ¬ (("hold" ≠ "auto") ∧ ("hold" ≠ "hold")) := by simp
    simp only [set_guidance_state, if_neg hne]
    split <;>
      simp [update_speed_selection_guidance, set_system_status_guidance,
        reset_target_filter, clear_map_target_guidance] <;>
      split <;> rfl

theorem handle_manual_target_filtered (store : ParamStore) (e : Engine)
    (lat lon : ℚ) (altIn : Option ℚ) :
    (handle_manual_target store e lat lon altIn).1.filtered_target = none := by
  simp [handle_manual_target, set_system_status_filtered, reset_target_filter]

theorem handle_clear_filtered (e : Engine) :
    (handle_clear e).1.filtered_target = none := by
  simp [handle_clear, reset_target_filter]

/-- C4 (amended): the target filter's state is reset to unset on every
guidance-mode transition (HOLD to AUTO and AUTO to HOLD, including
repeated excursions), on every manual-target set and every
manual-target clear, so after any such event the next apply returns its
input unchanged; an altitude-mode change, however, does NOT reset the
filter (it only clears any active manual target). -/
theorem catchleader_C4_filter_reset_events :
    (∀ (store : ParamStore) (e : Engine), e.guidance_state = "hold" →
      (set_guidance_state store e "auto").1.filtered_target = none) ∧
    (∀ (store : ParamStore) (e : Engine), e.guidance_state = "auto" →
      (set_guidance_state store e "hold").1.filtered_target = none) ∧
    (∀ (store : ParamStore) (e : Engine) (lat lon : ℚ) (altIn : Option ℚ),
      (handle_manual_target store e lat lon altIn).1.filtered_target = none) ∧
    (∀ e : Engine, (handle_clear e).1.filtered_target = none) ∧
    (∀ (store : ParamStore) (e : Engine), e.guidance_state = "hold" →
      (set_guidance_state store e "auto").1.filtered_target = none ∧
      (set_guidance_state store
        (set_guidance_state store e "auto").1 "hold").1.filtered_target = none ∧
      (set_guidance_state store
        (set_guidance_state store
          (set_guidance_state store e "auto").1 "hold").1 "auto").1.filtered_target =
        none) ∧
    (∀ (e : Engine) (t : ℚ × ℚ × ℚ), e.filtered_target = none →
      (filter_target e t).2 = t) := by
  refine ⟨sgs_hold_to_auto_filtered, sgs_auto_to_hold_filtered,
    handle_manual_target_filtered, handle_clear_filtered, ?_,
    fun e t h => (filter_target_unset e t h).1⟩
  intro store e h
  have h1 := sgs_guidance_state store e "auto" (Or.inl rfl)
  have h2 := sgs_guidance_state store (set_guidance_state store e "auto").1 "hold"
    (Or.inr rfl)
  exact ⟨sgs_hold_to_auto_filtered store e h,
    sgs_auto_to_hold_filtered store _ h1,
    sgs_hold_to_auto_filtered store _ h2⟩

/-- Engine with a populated filter state, no manual target, absolute
altitude mode. -/
def cexC4Engine : Engine := { wEngine with filtered_target := some (1, 2, 3) }

/-- C4 counterexample: an altitude-mode change (absolute to relative)
leaves the smoothing state in place, and the next apply smooths against
the stale state instead of returning its input. -/
theorem catchleader_C4_counterexample :
    cexC4Engine.catch_settings.use_relative_alt = false ∧
    (handle_altitude_mode cexC4Engine "relative").1.catch_settings.use_relative_alt =
      true ∧
    (handle_altitude_mode cexC4Engine "relative").1.filtered_target =
      some (1, 2, 3) ∧
    (filter_target (handle_altitude_mode cexC4Engine "relative").1 (10, 20, 30)).2 =
      (11 / 2, 11, 33 / 2) ∧
    (filter_target (handle_altitude_mode cexC4Engine "relative").1 (10, 20, 30)).2 ≠
      (10, 20, 30) := by
  have hstrip : py_lower (py_strip "relative") = "relative" := by decide
  have heng : (handle_altitude_mode cexC4Engine "relative").1 =
      { cexC4Engine with catch_settings :=
          { cexC4Engine.catch_settings with use_relative_alt := true } } := by
    have hne : ("relative" = "absolute") = False := eq_false (by decide)
    simp [handle_altitude_mode, on_altitude_mode_updated, hstrip, hne, cexC4Engine,
      wEngine]
  refine ⟨rfl, ?_, ?_, ?_, ?_⟩
  · rw [heng]
  · rw [heng]
    rfl
  · rw [heng]
    norm_num [filter_target, effective_alpha, cexC4Engine, wEngine]
  · rw [heng]
    norm_num [filter_target, effective_alpha, cexC4Engine, wEngine]

/-- Engine in HOLD used by the C4 witness. -/
def wEngineHold : Engine := { wEngine with guidance_state := "hold" }

/-- C4 witness: concrete transitions, manual set and clear, each leaving
the filter unset, and the subsequent apply passing its input through. -/
theorem catchleader_C4_witness :
    (set_guidance_state emptyStore wEngineHold "auto").1.filtered_target = none ∧
    (set_guidance_state emptyStore wEngine "hold").1.filtered_target = none ∧
    (handle_manual_target emptyStore wEngine 1 2 (some 3)).1.filtered_target =
      none ∧
    (handle_clear wEngine).1.filtered_target = none ∧
    (filter_target (set_guidance_state emptyStore wEngineHold "auto").1
      (4, 5, 6)).2 = (4, 5, 6) := by
  obtain ⟨h1, h2, h3, h4, -, h6⟩ := catchleader_C4_filter_reset_events
  exact ⟨h1 emptyStore wEngineHold rfl, h2 emptyStore wEngine rfl,
    h3 emptyStore wEngine 1 2 (some 3), h4 wEngine,
    h6 _ _ (h1 emptyStore wEngineHold rfl)⟩

theorem solverCall_not_mem_manual_range_fx (geo : Geo) (e : Engine)
    (target : ℚ × ℚ × ℚ) : Effect.solverCall ∉ manual_range_fx geo e target := by
  unfold manual_range_fx
  rcases e.follower.lat with _ | a <;> rcases e.follower.lon with _ | b <;> simp

theorem after_target_no_solver (geo : Geo) (e : Engine) (fx0 : List Effect)
    (t0 : ℚ × ℚ × ℚ) (ct : Option ℚ) (sel : SpeedSelection) (now : ℚ)
    (manual : Bool) (h0 : Effect.solverCall ∉ fx0) :
    Effect.solverCall ∉ (after_target geo e fx0 t0 ct sel now manual).2 := by
  intro hmem
  unfold after_target at hmem
  dsimp only at hmem
  split at hmem <;>
    simp only [List.mem_append, List.mem_singleton, List.mem_cons,
      List.not_mem_nil, or_false] at hmem <;>
    casesm* _ ∨ _ <;>
    first
      | exact h0 ‹_›
      | exact solverCall_not_mem_maybe_send _ _ ‹_›
      | exact solverCall_not_mem_send_target _ _ _ _ ‹_›
      | exact solverCall_not_mem_manual_range_fx _ _ _ ‹_›
      | simp_all

theorem after_target_position (geo : Geo) (e : Engine) (fx0 : List Effect)
    (t0 : ℚ × ℚ × ℚ) (ct : Option ℚ) (sel : SpeedSelection) (now : ℚ)
    (manual : Bool) :
    ∃ vel rel,
      Effect.positionTarget (filter_target e t0).2.1 (filter_target e t0).2.2.1
          (filter_target e t0).2.2.2 vel rel ∈
        (after_target geo e fx0 t0 ct sel now manual).2 := by
  have hst := positionTarget_mem_send_target geo
    (maybe_send_speed_command (filter_target e t0).1 sel).1 (filter_target e t0).2 sel
  refine ⟨velocity_override geo (maybe_send_speed_command (filter_target e t0).1 sel).1
      (filter_target e t0).2 sel,
    (maybe_send_speed_command
      (filter_target e t0).1 sel).1.catch_settings.use_relative_alt, ?_⟩
  unfold after_target
  dsimp only
  split <;> simp [List.mem_append, hst]

theorem after_target_manual_label (geo : Geo) (e : Engine) (fx0 : List Effect)
    (t0 : ℚ × ℚ × ℚ) (ct : Option ℚ) (sel : SpeedSelection) (now : ℚ) :
    Effect.ui (UIUpdate.targetLabel (filter_target e t0).2 true) ∈
      (after_target geo e fx0 t0 ct sel now true).2 := by
  unfold after_target
  dsimp only
  simp [List.mem_append]

theorem filter_target_guidance (e : Engine) (t : ℚ × ℚ × ℚ) :
    (filter_target e t).1.guidance_state = e.guidance_state := by
  unfold filter_target
  rcases e.filtered_target with _ | p
  · rfl
  · dsimp only
    split <;> rfl

theorem filter_target_last_cmd (e : Engine) (t : ℚ × ℚ × ℚ) :
    (filter_target e t).1.last_speed_command_value = e.last_speed_command_value := by
  unfold filter_target
  rcases e.filtered_target with _ | p
  · rfl
  · dsimp only
    split <;> rfl

theorem set_system_status_last_cmd (e : Engine) (st : SystemStatus) :
    (set_system_status e st).1.last_speed_command_value =
      e.last_speed_command_value := by
  unfold set_system_status
  split <;> rfl

theorem update_speed_selection_last_cmd_none (store : ParamStore) (e : Engine)
    (b : Bool) (h : e.last_speed_command_value = none) :
    (update_speed_selection store e b).1.last_speed_command_value = none := by
  unfold update_speed_selection
  dsimp only
  split
  · rfl
  · exact h

theorem update_speed_selection_sel (store : ParamStore) (e : Engine) (b : Bool) :
    (update_speed_selection store e b).2.2 =
      resolve_speed_selection store e.catch_settings := rfl

theorem maybe_send_fires (e : Engine) (sel : SpeedSelection)
    (h1 : e.guidance_state = "auto") (h2 : 0 < sel.value)
    (h3 : e.last_speed_command_value = none) :
    (maybe_send_speed_command e sel).2 =
      [Effect.speedCommand sel.value,
       Effect.ui (UIUpdate.logNote (LogMsg.requestedSpeed sel.profile sel.value))] := by
  simp [maybe_send_speed_command, h1, h2, h3, not_le.mpr h2]

theorem after_target_contains (geo : Geo) (e : Engine) (fx0 : List Effect)
    (t0 : ℚ × ℚ × ℚ) (ct : Option ℚ) (sel : SpeedSelection) (now : ℚ)
    (manual : Bool) (x : Effect)
    (hx : x ∈ (maybe_send_speed_command (filter_target e t0).1 sel).2) :
    x ∈ (after_target geo e fx0 t0 ct sel now manual).2 := by
  unfold after_target
  dsimp only
  split <;> (simp only [List.mem_append, List.mem_cons]; tauto)

theorem idle_manual_step (geo : Geo) (store : ParamStore) (e : Engine) (now : ℚ)
    (t0 : ℚ × ℚ × ℚ) (hauto : e.guidance_state = "auto")
    (hman : e.manual_target = some t0)
    (hpace : e.catch_settings.update_period ≤ now - e.last_sent) :
    idle_task_guidance geo store e now =
      after_target geo
        (set_system_status (update_speed_selection store e false).1
          SystemStatus.guidingManual).1
        ((update_speed_selection store e false).2.1 ++
          (set_system_status (update_speed_selection store e false).1
            SystemStatus.guidingManual).2)
        t0 none (update_speed_selection store e false).2.2 now true := by
  have hne : ¬ (e.guidance_state ≠ "auto") := by simp [hauto]
  have hnp : ¬ (now - e.last_sent < e.catch_settings.update_period) :=
    not_lt.mpr hpace
  simp only [idle_task_guidance, if_neg hne, if_neg hnp,
    update_speed_selection_manual, hman]

/-- C3 (amended): on every guidance tick taken while a manual target is
set (guidance AUTO, pacing interval elapsed), the engine never invokes
InterceptSolver; it still runs the speed-selection refresh and the
speed-command path (a speed-change command may be emitted subject to the
usual de-duplication gating), and it produces the position target and
the display updates. -/
theorem catchleader_C3_manual_tick_no_solver (geo : Geo) (store : ParamStore)
    (e : Engine) (now : ℚ) (t0 : ℚ × ℚ × ℚ)
    (hauto : e.guidance_state = "auto") (hman : e.manual_target = some t0)
    (hpace : e.catch_settings.update_period ≤ now - e.last_sent) :
    Effect.solverCall ∉ (idle_task_guidance geo store e now).2 ∧
    (∃ (target : ℚ × ℚ × ℚ) (vel : Option (ℚ × ℚ × ℚ)) (rel : Bool),
      Effect.positionTarget target.1 target.2.1 target.2.2 vel rel ∈
        (idle_task_guidance geo store e now).2) ∧
    (∃ target : ℚ × ℚ × ℚ, Effect.ui (UIUpdate.targetLabel target true) ∈
      (idle_task_guidance geo store e now).2) := by
  rw [idle_manual_step geo store e now t0 hauto hman hpace]
  refine ⟨after_target_no_solver _ _ _ _ _ _ _ _ ?_, ?_, ?_⟩
  · intro hmem
    rcases List.mem_append.mp hmem with h | h
    · exact solverCall_not_mem_update_speed_selection store e false h
    · exact solverCall_not_mem_set_system_status _ _ h
  · obtain ⟨vel, rel, hm⟩ := after_target_position geo _ _ t0 none _ now true
    exact ⟨_, vel, rel, hm⟩
  · exact ⟨_, after_target_manual_label geo _ _ t0 none _ now⟩

/-- Engine in AUTO with a manual target set and the pacing interval
elapsed. -/
def cexC3Engine : Engine :=
  { wEngine with manual_target := some (1, 2, 3), last_sent := 0 }

/-- C3 counterexample: on a manual-target tick the engine emits a
speed-change command (the de-duplication cache is empty and the resolved
value 20 is positive), refuting "never emits a speed-change command". -/
theorem catchleader_C3_counterexample :
    cexC3Engine.guidance_state = "auto" ∧
    cexC3Engine.manual_target = some (1, 2, 3) ∧
    cexC3Engine.catch_settings.update_period ≤ 10 - cexC3Engine.last_sent ∧
    Effect.speedCommand 20 ∈ (idle_task_guidance wGeo emptyStore cexC3Engine 10).2 := by
  have hlow : py_lower "custom" = "custom" := by decide
  have hne1 : ("custom" = "cruise") = False := eq_false (by decide)
  have hne2 : ("custom" = "max") = False := eq_false (by decide)
  have hsel : resolve_speed_selection emptyStore cexC3Engine.catch_settings =
      ({ profile := "custom", value := 20, source := "follower_speed",
         forced_velocity := false, fallback := false,
         warning := [] } : SpeedSelection) := by
    norm_num [resolve_speed_selection, profile_candidates, first_usable_candidate,
      cexC3Engine, wEngine, hlow, hne1, hne2]
  refine ⟨rfl, rfl, by norm_num [cexC3Engine, wEngine], ?_⟩
  rw [idle_manual_step wGeo emptyStore cexC3Engine 10 (1, 2, 3) rfl rfl
    (by norm_num [cexC3Engine, wEngine])]
  apply after_target_contains
  rw [maybe_send_fires]
  · rw [update_speed_selection_sel, hsel]
    simp
  · rw [filter_target_guidance, set_system_status_guidance,
      update_speed_selection_guidance]
    rfl
  · rw [update_speed_selection_sel, hsel]
    norm_num
  · rw [filter_target_last_cmd, set_system_status_last_cmd]
    exact update_speed_selection_last_cmd_none emptyStore cexC3Engine false rfl

/-- C3 witness: the same concrete manual-target tick never invokes the
solver while emitting the position target and the target display. -/
theorem catchleader_C3_witness :
    Effect.solverCall ∉ (idle_task_guidance wGeo emptyStore cexC3Engine 10).2 ∧
    (∃ (target : ℚ × ℚ × ℚ) (vel : Option (ℚ × ℚ × ℚ)) (rel : Bool),
      Effect.positionTarget target.1 target.2.1 target.2.2 vel rel ∈
        (idle_task_guidance wGeo emptyStore cexC3Engine 10).2) ∧
    (∃ target : ℚ × ℚ × ℚ, Effect.ui (UIUpdate.targetLabel target true) ∈
      (idle_task_guidance wGeo emptyStore cexC3Engine 10).2) :=
  catchleader_C3_manual_tick_no_solver wGeo emptyStore cexC3Engine 10 (1, 2, 3)
    rfl rfl (by norm_num [cexC3Engine, wEngine])
